import Mathlib

/-!
# Verification of the BiochemReact core against its specification

This file gives a shallow embedding, in Lean 4, of the algorithmic core of the
BiochemReact web application:

* the Michaelis–Menten kinetics simulator (`KineticsLab`: data generation and
  the brute-force grid-search parameter fit);
* the procedural 3D molecule builders of `MoleculeViewer.jsx` (atoms, bonds,
  ring/fused-ring/helix construction);
* the viewer session controller (molecule load/dispose, scroll zoom) and the
  saved-view persistence store.

JavaScript floating-point numbers are modelled as exact rationals (`ℚ`) where
the code is plain arithmetic, and as exact reals (`ℝ`) where the builders use
trigonometric functions.  Fallible operations (registry lookup, JSON parsing)
are modelled with `Option`.
-/

namespace Kinetics

/-- A sample of the kinetics dataset: substrate concentration `S` and observed
initial velocity `v` (the entries pushed onto `newData` in `generateData`). -/
structure DataPoint where
  S : ℚ
  v : ℚ
deriving DecidableEq

/-- The Michaelis–Menten rate law `mmRate = (S, Vmax, Km) => (Vmax * S) / (Km + S)`
of `KineticsLab`.  Exact rational arithmetic stands in for JS doubles; note that
in `ℚ` division by zero yields `0` where JS would yield `NaN`/`Infinity`
(the grid search only evaluates it at `Km ≥ 1`). -/
def mmRate (S Vmax Km : ℚ) : ℚ := Vmax * S / (Km + S)

/-- The loop tolerance `1e-9` in `for (let S = 0; S <= Smax + 1e-9; S += step)`. -/
def eps : ℚ := 1 / 1000000000

/-- `parseFloat(x.toFixed(digits))`: round to the nearest multiple of
`10^-digits`, ties away from the smaller value (ECMAScript `toFixed` picks the
larger candidate on a tie, which is `round` = floor of `x + 1/2`). -/
def jsToFixed (digits : ℕ) (q : ℚ) : ℚ := (round (q * 10 ^ digits) : ℚ) / 10 ^ digits

/-- The velocity of one generated sample (`generateData` loop body): the
Michaelis–Menten rate, and when `noise` is set, a multiplicative ±8%
perturbation (`rand k` models the `k`-th `Math.random()` draw in `[0,1)`)
clamped below at `0`. -/
def sampleV (noise : Bool) (rand : ℕ → ℚ) (k : ℕ) (Vmax Km S : ℚ) : ℚ :=
  let v := mmRate S Vmax Km
  if noise then
    let sigma := 8 / 100 * v
    let noiseAmount := (rand k * 2 - 1) * sigma
    let v2 := v + noiseAmount
    if v2 < 0 then 0 else v2
  else v

/-- The body of `generateData`'s `for` loop, as fuelled structural recursion:
starting from substrate value `S` (the `k`-th sample), push
`{S: S.toFixed(3), v: v.toFixed(4)}` while `S <= Smax + 1e-9`, stepping by
`step`.  `fuel` is an upper bound on the remaining iterations; `genFuel`
below supplies enough for the whole loop when `step > 0`. -/
def genLoop (noise : Bool) (rand : ℕ → ℚ) (Vmax Km Smax step : ℚ) :
    ℕ → ℚ → ℕ → List DataPoint
  | _, _, 0 => []
  | k, S, fuel + 1 =>
    if S ≤ Smax + eps then
      { S := jsToFixed 3 S, v := jsToFixed 4 (sampleV noise rand k Vmax Km S) } ::
        genLoop noise rand Vmax Km Smax step (k + 1) (S + step) fuel
    else []

/-- Number of iterations of the generation loop started at `S = 0`
(for `step > 0` this is exact: the loop runs while `k·step ≤ Smax + 1e-9`). -/
def genFuel (Smax step : ℚ) : ℕ := (⌊(Smax + eps) / step⌋ + 1).toNat

/-- `generateData` of `KineticsLab`: `Vmax = kcat * E`; samples at
`S = 0, step, 2·step, …` while `S ≤ Smax + 1e-9`; each stored sample holds
`S` rounded to 3 decimals and `v` rounded to 4 decimals. -/
def generateData (E kcat Km Smax step : ℚ) (noise : Bool) (rand : ℕ → ℚ) :
    List DataPoint :=
  genLoop noise rand (kcat * E) Km Smax step 0 0 (genFuel Smax step)

/-- The running best candidate of `fitParameters`' search,
`best = {err, kmTest, vmaxTest}`.  The initial `{err: Infinity, …}` sentinel is
modelled as `none` (any first computed error replaces it, exactly as any
rational is `< Infinity`). -/
structure FitBest where
  err : ℚ
  kmTest : ℕ
  vmaxTest : ℕ
deriving DecidableEq

/-- Sum of squared errors of a candidate `(vmaxTest, kmTest)` against the
dataset (the inner `for (const p of data.data)` accumulation). -/
def sse (data : List DataPoint) (vmaxTest kmTest : ℚ) : ℚ :=
  data.foldl (fun err p => err + (mmRate p.S vmaxTest kmTest - p.v) ^ 2) 0

/-- Km candidates of the outer loop `for (kmTest = 1; kmTest <= 500; kmTest += 1)`,
in iteration (ascending) order. -/
def kmGrid : List ℕ := (List.range 500).map (· + 1)

/-- Vmax candidates of the inner loop `for (vmaxTest = 1; vmaxTest <= 1000; vmaxTest += 5)`:
`1, 6, 11, …, 996`, in iteration (ascending) order. -/
def vmaxGrid : List ℕ := (List.range 200).map (fun j => 1 + 5 * j)

/-- All `(kmTest, vmaxTest)` candidates of the grid search, in iteration order:
outer Km ascending, inner Vmax ascending. -/
def fitCandidates : List (ℕ × ℕ) :=
  kmGrid.flatMap fun km => vmaxGrid.map fun vm => (km, vm)

/-- The error of a candidate pair `(kmTest, vmaxTest)` on a dataset. -/
def candErr (pts : List DataPoint) (c : ℕ × ℕ) : ℚ := sse pts c.2 c.1

/-- One step of the search: `if (err < best.err) best = {err, kmTest, vmaxTest}`,
with `none` playing the role of the `err: Infinity` sentinel. -/
def fitUpdate (pts : List DataPoint) (best : Option FitBest) (c : ℕ × ℕ) :
    Option FitBest :=
  let err := candErr pts c
  match best with
  | none => some ⟨err, c.1, c.2⟩
  | some b => if err < b.err then some ⟨err, c.1, c.2⟩ else some b

/-- The fit result stored by `setFit`: best Vmax and Km, total squared error,
and the squared RMSE `err / N` (the JS field is `rmse: Math.sqrt(err / N)`;
we store the exact radicand, see `FitResult.rmse`). -/
structure FitResult where
  Vmax : ℕ
  Km : ℕ
  err : ℚ
  rmseSq : ℚ
deriving DecidableEq

/-- The RMSE the JS code stores: `Math.sqrt(best.err / data.data.length)`. -/
noncomputable def FitResult.rmse (r : FitResult) : ℝ := Real.sqrt (r.rmseSq : ℝ)

/-- `fitParameters` of `KineticsLab`: `if (!data || !data.data) return;` then the
brute-force grid search.  An absent dataset (`data` = `none`, JS `null`) yields
no result; a present dataset — even an empty array, which passes the JS
truthiness guard — always yields a result. -/
def fitParameters (data : Option (List DataPoint)) : Option FitResult :=
  match data with
  | none => none
  | some pts =>
    (fitCandidates.foldl (fitUpdate pts) none).map fun b =>
      { Vmax := b.vmaxTest, Km := b.kmTest, err := b.err,
        rmseSq := b.err / (pts.length : ℚ) }

/-- Packaging of a candidate as the best-so-far record. -/
def mkBest (pts : List DataPoint) (c : ℕ × ℕ) : FitBest :=
  ⟨candErr pts c, c.1, c.2⟩

/-- Iterations remaining in the generation loop when the running substrate
value is `S` (exact for `step > 0`): the number of `j ≥ 0` with
`S + j·step ≤ Smax + 1e-9`. -/
def iterCount (Smax step S : ℚ) : ℕ := (⌊(Smax + eps - S) / step⌋ + 1).toNat

end Kinetics

noncomputable section

namespace Viewer3D

/-- A 3D position (a JS `THREE.Vector3`), with exact real coordinates standing
in for JS doubles. -/
structure Vec3 where
  x : ℝ
  y : ℝ
  z : ℝ

/-- Componentwise addition, modelling `THREE.Vector3.add`. -/
def Vec3.add (a b : Vec3) : Vec3 := ⟨a.x + b.x, a.y + b.y, a.z + b.z⟩

/-- An atom mesh as produced by `createAtom(x, y, z, color, size)`: a sphere of
the given colour and radius at the given position. -/
structure Atom where
  pos : Vec3
  color : ℕ
  radius : ℝ

/-- A bond mesh as produced by `createBond(start, end, color = 0xcccccc)`: a
cylinder between the two endpoint positions, with the given colour. -/
structure Bond where
  src : Vec3
  dst : Vec3
  color : ℕ

/-- The default bond colour `0xcccccc` of `createBond`. -/
def bondDefaultColor : ℕ := 0xcccccc

/-- `createBond(start, end, color)` at the data level. -/
def mkBond (src dst : Vec3) (color : ℕ := bondDefaultColor) : Bond :=
  ⟨src, dst, color⟩

/-- A built molecule: the `THREE.Group` a builder returns.  `atoms` lists the
atom meshes in creation (`group.add`) order — so the index into `atoms` models
JS object identity — and `bonds` lists the bond meshes in creation order. -/
structure MolGroup where
  atoms : List Atom
  bonds : List Bond

/-- The positions of the atoms of a group, in creation order. -/
def atomPositions (g : MolGroup) : List Vec3 := g.atoms.map (·.pos)

/-- A bond is anchored in a group when both endpoints are positions of atoms of
that group (the "no dangling bonds" invariant). -/
def anchored (g : MolGroup) (b : Bond) : Prop :=
  b.src ∈ atomPositions g ∧ b.dst ∈ atomPositions g

namespace Glucose

/-- Ring angle `(i * Math.PI * 2) / 6` of `makeGlucose`. -/
def angle (i : ℕ) : ℝ := i * Real.pi * 2 / 6

/-- Ring atom position: a radius-2 circle in the xy-plane. -/
def ringPos (i : ℕ) : Vec3 := ⟨2 * Real.cos (angle i), 2 * Real.sin (angle i), 0⟩

/-- Ring atom `i`: index 0 is the ring oxygen (red, 0.6), the rest carbons. -/
def ringAtom (i : ℕ) : Atom :=
  if i = 0 then ⟨ringPos i, 0xff0000, 0.6⟩ else ⟨ringPos i, 0x404040, 0.5⟩

/-- Hydroxyl oxygen for ring carbon `i`: radially outward at radius 2 + 1.4. -/
def oPos (i : ℕ) : Vec3 :=
  ⟨(2 + 1.4) * Real.cos (angle i), (2 + 1.4) * Real.sin (angle i), 0⟩

/-- Hydroxyl hydrogen: a further 0.8 outward along the same direction. -/
def hPos (i : ℕ) : Vec3 :=
  ⟨(oPos i).x + 0.8 * Real.cos (angle i), (oPos i).y + 0.8 * Real.sin (angle i), 0⟩

/-- CH₂OH carbon attached to ring atom 5. -/
def c5Pos : Vec3 :=
  ⟨(2 + 1.4) * Real.cos (angle 5), (2 + 1.4) * Real.sin (angle 5), 0⟩

/-- CH₂OH oxygen. -/
def o5Pos : Vec3 :=
  ⟨c5Pos.x + 0.8 * Real.cos (angle 5), c5Pos.y + 0.8 * Real.sin (angle 5), 0⟩

/-- CH₂OH hydroxyl hydrogen. -/
def h5Pos : Vec3 :=
  ⟨o5Pos.x + 0.8 * Real.cos (angle 5), o5Pos.y + 0.8 * Real.sin (angle 5), 0⟩

/-- `makeGlucose`: 6-membered ring (cyclic bonds), OH groups on ring atoms
1–4, and the CH₂OH group on ring atom 5. -/
def makeGlucose : MolGroup :=
  { atoms :=
      (List.range 6).map ringAtom ++
      ([1, 2, 3, 4].flatMap fun i =>
        [⟨oPos i, 0xff0000, 0.6⟩, ⟨hPos i, 0xffffff, 0.35⟩]) ++
      [⟨c5Pos, 0x404040, 0.45⟩, ⟨o5Pos, 0xff0000, 0.55⟩, ⟨h5Pos, 0xffffff, 0.35⟩]
    bonds :=
      ((List.range 6).map fun i => mkBond (ringPos i) (ringPos ((i + 1) % 6))) ++
      ([1, 2, 3, 4].flatMap fun i =>
        [mkBond (ringPos i) (oPos i), mkBond (oPos i) (hPos i)]) ++
      [mkBond (ringPos 5) c5Pos, mkBond c5Pos o5Pos, mkBond o5Pos h5Pos] }

end Glucose

namespace Alanine

/-- `const SCALE = 1.6` of `makeAlanine`. -/
def SCALE : ℝ := 1.6

/-- `createAt`: positions are given in unscaled units and multiplied by SCALE. -/
def pt (x y z : ℝ) : Vec3 := ⟨x * SCALE, y * SCALE, z * SCALE⟩

def ca : Atom := ⟨pt 0 0 0, 0x404040, 0.4⟩
def n : Atom := ⟨pt (-1.2) 0.8 0, 0x3050f8, 0.45⟩
def nh1 : Atom := ⟨pt (-2.0) 1.3 0, 0xffffff, 0.25⟩
def nh2 : Atom := ⟨pt (-1.2) 1.8 0, 0xffffff, 0.25⟩
def c2 : Atom := ⟨pt 1.4 0 0, 0x404040, 0.4⟩
def o1 : Atom := ⟨pt 2.4 0.8 0, 0xff3030, 0.45⟩
def o2 : Atom := ⟨pt 2.4 (-0.8) 0, 0xff3030, 0.45⟩
def cb : Atom := ⟨pt 0 (-1.4) 0, 0x404040, 0.4⟩
def mh1 : Atom := ⟨pt (-0.8) (-2.2) 0, 0xffffff, 0.25⟩
def mh2 : Atom := ⟨pt 0.8 (-2.2) 0, 0xffffff, 0.25⟩
def mh3 : Atom := ⟨pt 0 (-1.4) 1.0, 0xffffff, 0.25⟩

/-- `makeAlanine`: backbone Cα with amino group, carboxyl group, and methyl
side chain. -/
def makeAlanine : MolGroup :=
  { atoms := [ca, n, nh1, nh2, c2, o1, o2, cb, mh1, mh2, mh3]
    bonds :=
      [mkBond ca.pos n.pos, mkBond n.pos nh1.pos, mkBond n.pos nh2.pos,
       mkBond ca.pos c2.pos, mkBond c2.pos o1.pos, mkBond c2.pos o2.pos,
       mkBond ca.pos cb.pos, mkBond cb.pos mh1.pos, mkBond cb.pos mh2.pos,
       mkBond cb.pos mh3.pos] }

end Alanine

namespace ATP

/-- `const SC = 1.1` of `makeATP`. -/
def SC : ℝ := 1.1

/-- `mk(x, y, 'C', z)` with `COL.C`/`SZ.C`. -/
def mkC (x y : ℝ) (z : ℝ := 0) : Atom := ⟨⟨x * SC, y * SC, z * SC⟩, 0x404040, 0.30⟩

/-- `mk(x, y, 'N', z)`. -/
def mkN (x y : ℝ) (z : ℝ := 0) : Atom := ⟨⟨x * SC, y * SC, z * SC⟩, 0x3050f8, 0.32⟩

/-- `mk(x, y, 'O', z)`. -/
def mkO (x y : ℝ) (z : ℝ := 0) : Atom := ⟨⟨x * SC, y * SC, z * SC⟩, 0xff3030, 0.32⟩

/-- `mk(x, y, 'P', z)`. -/
def mkP (x y : ℝ) (z : ℝ := 0) : Atom := ⟨⟨x * SC, y * SC, z * SC⟩, 0xffa500, 0.44⟩

/-- `mk(x, y, 'H', z)`. -/
def mkH (x y : ℝ) (z : ℝ := 0) : Atom := ⟨⟨x * SC, y * SC, z * SC⟩, 0xffffff, 0.18⟩

def C4 : Atom := mkC 0.000 0.500
def N3 : Atom := mkN (-0.866) 1.000
def C2 : Atom := mkC (-1.732) 0.500
def N1 : Atom := mkN (-1.732) (-0.500)
def C6 : Atom := mkC (-0.866) (-1.000)
def C5 : Atom := mkC 0.000 (-0.500)
def N7 : Atom := mkN 0.951 0.809 0.35
def C8 : Atom := mkC 1.539 0.000
def N9 : Atom := mkN 0.951 (-0.809) (-0.35)
def NH2N : Atom := mkN (-0.866) (-1.950)
def NH2a : Atom := mkH (-1.516) (-2.423)
def NH2b : Atom := mkH (-0.216) (-2.423)
def HC2 : Atom := mkH (-3.204) 1.350
def HC8 : Atom := mkH 2.389 0.000
def C1p : Atom := mkC 1.2931 (-1.7487)
def O4p : Atom := mkO 2.2267 (-2.1071)
def C4p : Atom := mkC 2.1743 (-3.1057)
def C3p : Atom := mkC 1.2084 (-3.3645)
def C2p : Atom := mkC 0.6638 (-2.5259)
def O2p : Atom := mkO (-0.3349) (-2.4735)
def H2p : Atom := mkH (-0.8889) (-2.4305)
def O3p : Atom := mkO 0.8500 (-4.2981)
def H3p : Atom := mkH 0.4917 (-5.0000)
def C5p : Atom := mkC 2.9515 (-3.7350)
def O5p : Atom := mkO 3.6509 (-4.3014)
def Pa : Atom := mkP 4.3503 (-4.8678)
def PaO1 : Atom := mkO 4.9167 (-4.1684)
def PaO2 : Atom := mkO 3.7839 (-5.5672)
def Ob1 : Atom := mkO 5.0498 (-5.4342)
def Pb : Atom := mkP 5.7492 (-6.0006)
def PbO1 : Atom := mkO 6.3156 (-5.3011)
def PbO2 : Atom := mkO 5.1828 (-6.7000)
def Ob2 : Atom := mkO 6.4486 (-6.5670)
def Pg : Atom := mkP 7.1481 (-7.1334)
def PgO1 : Atom := mkO 7.7144 (-6.4339)
def PgO2 : Atom := mkO 6.5817 (-7.8328)
def PgO3 : Atom := mkO 7.8475 (-7.6997)

/-- `makeATP` (first full-structure variant): adenine (pyrimidine + fused
imidazole), ribose, and the triphosphate chain.  Atoms are listed in JS
creation order (inline `mk` calls at their point of occurrence). -/
def makeATP : MolGroup :=
  { atoms :=
      [C4, N3, C2, N1, C6, C5, N7, C8, N9, NH2N, NH2a, NH2b, HC2, HC8,
       C1p, O4p, C4p, C3p, C2p, O2p, H2p, O3p, H3p, C5p, O5p,
       Pa, PaO1, PaO2, Ob1, Pb, PbO1, PbO2, Ob2, Pg, PgO1, PgO2, PgO3]
    bonds :=
      [mkBond C4.pos N3.pos, mkBond N3.pos C2.pos, mkBond C2.pos N1.pos,
       mkBond N1.pos C6.pos, mkBond C6.pos C5.pos, mkBond C5.pos C4.pos,
       mkBond C4.pos N7.pos, mkBond N7.pos C8.pos, mkBond C8.pos N9.pos,
       mkBond N9.pos C5.pos,
       mkBond C6.pos NH2N.pos, mkBond NH2N.pos NH2a.pos, mkBond NH2N.pos NH2b.pos,
       mkBond C2.pos HC2.pos, mkBond C8.pos HC8.pos,
       mkBond N9.pos C1p.pos, mkBond C1p.pos O4p.pos, mkBond O4p.pos C4p.pos,
       mkBond C4p.pos C3p.pos, mkBond C3p.pos C2p.pos, mkBond C2p.pos C1p.pos,
       mkBond C2p.pos O2p.pos, mkBond O2p.pos H2p.pos,
       mkBond C3p.pos O3p.pos, mkBond O3p.pos H3p.pos,
       mkBond C4p.pos C5p.pos,
       mkBond C5p.pos O5p.pos, mkBond O5p.pos Pa.pos,
       mkBond Pa.pos PaO1.pos, mkBond Pa.pos PaO2.pos, mkBond Pa.pos Ob1.pos,
       mkBond Ob1.pos Pb.pos, mkBond Pb.pos PbO1.pos, mkBond Pb.pos PbO2.pos,
       mkBond Pb.pos Ob2.pos,
       mkBond Ob2.pos Pg.pos, mkBond Pg.pos PgO1.pos, mkBond Pg.pos PgO2.pos,
       mkBond Pg.pos PgO3.pos] }

/-- The pyrimidine ring `C4-N3-C2-N1-C6-C5` as indices into `makeATP.atoms`
(creation order): C4 is atom 0, …, C5 is atom 5. -/
def pyrimidineRing : List ℕ := [0, 1, 2, 3, 4, 5]

/-- The fused imidazole ring cycle `C4-N7-C8-N9-C5` as atom indices: its two
anchor atoms are the *existing* pyrimidine atoms 0 (C4) and 5 (C5) — only
N7, C8, N9 (indices 6, 7, 8) are newly created. -/
def imidazoleRing : List ℕ := [0, 6, 7, 8, 5]

end ATP

namespace DNA

/-- Adenine pentagon corner positions (`aPos`). -/
def aPos : List Vec3 :=
  [⟨-3, 1.5, 0⟩, ⟨-2.5, 0.5, 0⟩, ⟨-3, -0.5, 0⟩, ⟨-4, -0.5, 0⟩, ⟨-4.5, 0.5, 0⟩]

/-- Thymine pentagon corner positions (`tPos`). -/
def tPos : List Vec3 :=
  [⟨3, 1.5, 0⟩, ⟨2.5, 0.5, 0⟩, ⟨3, -0.5, 0⟩, ⟨4, -0.5, 0⟩, ⟨4.5, 0.5, 0⟩]

/-- Adenine atoms: blue at indices 0 and 4, grey otherwise, radius 0.45. -/
def aAtoms : List Atom :=
  (List.range 5).map fun i =>
    ⟨aPos.getD i ⟨0, 0, 0⟩, if i = 0 ∨ i = 4 then 0x0000ff else 0x404040, 0.45⟩

/-- Thymine atoms: red at indices 1 and 3, grey otherwise. -/
def tAtoms : List Atom :=
  (List.range 5).map fun i =>
    ⟨tPos.getD i ⟨0, 0, 0⟩, if i = 1 ∨ i = 3 then 0xff0000 else 0x404040, 0.45⟩

/-- The two green inter-base hydrogen-bond connectors, drawn between fixed
free-standing points (not atom positions). -/
def connectors : List Bond :=
  [mkBond ⟨-2.5, 1, 0⟩ ⟨2.5, 1, 0⟩ 0x88ff88,
   mkBond ⟨-2.5, -0.2, 0⟩ ⟨2.5, -0.2, 0⟩ 0x88ff88]

/-- `makeDNA`: two closed pentagons plus the two connectors. -/
def makeDNA : MolGroup :=
  { atoms := aAtoms ++ tAtoms
    bonds :=
      ((List.range 5).map fun i =>
        mkBond (aPos.getD i ⟨0, 0, 0⟩) (aPos.getD ((i + 1) % 5) ⟨0, 0, 0⟩)) ++
      ((List.range 5).map fun i =>
        mkBond (tPos.getD i ⟨0, 0, 0⟩) (tPos.getD ((i + 1) % 5) ⟨0, 0, 0⟩)) ++
      connectors }

end DNA

namespace DNACG

/-- Cytosine pentagon corner positions (`cPos`), same geometry as DNA's left
base. -/
def cPos : List Vec3 :=
  [⟨-3, 1.5, 0⟩, ⟨-2.5, 0.5, 0⟩, ⟨-3, -0.5, 0⟩, ⟨-4, -0.5, 0⟩, ⟨-4.5, 0.5, 0⟩]

/-- Guanine pentagon corner positions (`gPos`). -/
def gPos : List Vec3 :=
  [⟨3, 1.5, 0⟩, ⟨2.5, 0.5, 0⟩, ⟨3, -0.5, 0⟩, ⟨4, -0.5, 0⟩, ⟨4.5, 0.5, 0⟩]

/-- Cytosine atoms: blue at indices 1 and 3, grey otherwise. -/
def cAtoms : List Atom :=
  (List.range 5).map fun i =>
    ⟨cPos.getD i ⟨0, 0, 0⟩, if i = 1 ∨ i = 3 then 0x0000ff else 0x404040, 0.45⟩

/-- Guanine atoms: grey at indices 0 and 4, blue otherwise. -/
def gAtoms : List Atom :=
  (List.range 5).map fun i =>
    ⟨gPos.getD i ⟨0, 0, 0⟩, if i = 0 ∨ i = 4 then 0x404040 else 0x0000ff, 0.45⟩

/-- The three green inter-base hydrogen-bond connectors (C≡G has 3 H-bonds),
between fixed free-standing points. -/
def connectors : List Bond :=
  [mkBond ⟨-2.5, 1, 0⟩ ⟨2.5, 1, 0⟩ 0x88ff88,
   mkBond ⟨-2.5, -0.2, 0⟩ ⟨2.5, -0.2, 0⟩ 0x88ff88,
   mkBond ⟨-2.5, 0.4, 0⟩ ⟨2.5, 0.4, 0⟩ 0x88ff88]

/-- `makeDNACG`: two closed pentagons plus the three connectors. -/
def makeDNACG : MolGroup :=
  { atoms := cAtoms ++ gAtoms
    bonds :=
      ((List.range 5).map fun i =>
        mkBond (cPos.getD i ⟨0, 0, 0⟩) (cPos.getD ((i + 1) % 5) ⟨0, 0, 0⟩)) ++
      ((List.range 5).map fun i =>
        mkBond (gPos.getD i ⟨0, 0, 0⟩) (gPos.getD ((i + 1) % 5) ⟨0, 0, 0⟩)) ++
      connectors }

end DNACG

namespace AcetylCoA

/-- `const SC = 1.1` of `makeAcetylCoA`. -/
def SC : ℝ := 1.1

def mkC (x y : ℝ) (z : ℝ := 0) : Atom := ⟨⟨x * SC, y * SC, z * SC⟩, 0x404040, 0.30⟩
def mkN (x y : ℝ) (z : ℝ := 0) : Atom := ⟨⟨x * SC, y * SC, z * SC⟩, 0x3050f8, 0.32⟩
def mkO (x y : ℝ) (z : ℝ := 0) : Atom := ⟨⟨x * SC, y * SC, z * SC⟩, 0xff3030, 0.32⟩
def mkP (x y : ℝ) (z : ℝ := 0) : Atom := ⟨⟨x * SC, y * SC, z * SC⟩, 0xffa500, 0.42⟩
def mkS (x y : ℝ) (z : ℝ := 0) : Atom := ⟨⟨x * SC, y * SC, z * SC⟩, 0xffdd00, 0.44⟩
def mkH (x y : ℝ) (z : ℝ := 0) : Atom := ⟨⟨x * SC, y * SC, z * SC⟩, 0xffffff, 0.18⟩

def C4 : Atom := mkC 0.000 0.500
def N3 : Atom := mkN (-0.866) 1.000
def C2 : Atom := mkC (-1.732) 0.500
def N1 : Atom := mkN (-1.732) (-0.500)
def C6 : Atom := mkC (-0.866) (-1.000)
def C5 : Atom := mkC 0.000 (-0.500)
def N7 : Atom := mkN 0.951 0.809 0.35
def C8 : Atom := mkC 1.539 0.000
def N9 : Atom := mkN 0.951 (-0.809) (-0.35)
def NH2N : Atom := mkN (-0.866) (-1.950)
def NH2a : Atom := mkH (-1.516) (-2.423)
def NH2b : Atom := mkH (-0.216) (-2.423)
def HC2 : Atom := mkH (-3.204) 1.350
def HC8 : Atom := mkH 2.389 0.000
def C1p : Atom := mkC 1.2931 (-1.7487)
def O4p : Atom := mkO 2.2267 (-2.1071)
def C4p : Atom := mkC 2.1743 (-3.1057)
def C3p : Atom := mkC 1.2084 (-3.3645)
def C2p : Atom := mkC 0.6638 (-2.5259)
def O2p : Atom := mkO (-0.3349) (-2.4735)
def H2p : Atom := mkH (-0.8889) (-2.4305)
def O3p : Atom := mkO 0.8500 (-4.2981)
def C5p : Atom := mkC 2.9515 (-3.7350)
def P3 : Atom := mkP 0.4917 (-5.2317)
def P3O1 : Atom := mkO 0.6883 (-6.0586)
def P3O2 : Atom := mkO (-0.2078) (-5.7146)
def P3O3 : Atom := mkO 0.7963 (-4.4381)
def Pa : Atom := mkP 3.8840 (-4.4902)
def PaO1 : Atom := mkO 3.8840 (-3.6402)
def PaO2 : Atom := mkO 3.8840 (-5.3402)
def PbO : Atom := mkO 4.4280 (-4.9307)
def Pb : Atom := mkP 4.9720 (-5.3713)
def PbO1 : Atom := mkO 4.9720 (-4.5213)
def PbO2 : Atom := mkO 4.9720 (-6.2213)

/-- `const DY = 0.42` of the pantetheine-arm walk. -/
def DY : ℝ := 0.42

/-- The walk state `(wx, wy)` after each `step(el, dy)` (`wx += 1.05; wy += dy`),
starting from Pb's unscaled coordinates `(4.9720, -5.3713)`. -/
def wPbLink : ℝ × ℝ := (4.9720 + 1.05, -5.3713 + DY)
def wPantC1 : ℝ × ℝ := (wPbLink.1 + 1.05, wPbLink.2 - DY)
def wPantC2 : ℝ × ℝ := (wPantC1.1 + 1.05, wPantC1.2 + DY)
def wAmC1 : ℝ × ℝ := (wPantC2.1 + 1.05, wPantC2.2 - DY)
def wAmN1 : ℝ × ℝ := (wAmC1.1 + 1.05, wAmC1.2 + DY)
def wBetC1 : ℝ × ℝ := (wAmN1.1 + 1.05, wAmN1.2 - DY)
def wBetC2 : ℝ × ℝ := (wBetC1.1 + 1.05, wBetC1.2 + DY)
def wAmC2 : ℝ × ℝ := (wBetC2.1 + 1.05, wBetC2.2 - DY)
def wAmN2 : ℝ × ℝ := (wAmC2.1 + 1.05, wAmC2.2 + DY)
def wCysC1 : ℝ × ℝ := (wAmN2.1 + 1.05, wAmN2.2 - DY)
def wCysC2 : ℝ × ℝ := (wCysC1.1 + 1.05, wCysC1.2 + DY)
def wSulfur : ℝ × ℝ := (wCysC2.1 + 1.05, wCysC2.2 - 0.30)
def wThioC : ℝ × ℝ := (wSulfur.1 + 1.05, wSulfur.2 + 0.30)
def wMethyl : ℝ × ℝ := (wThioC.1 + 1.05, wThioC.2 + DY)

def PbLink : Atom := mkO wPbLink.1 wPbLink.2
def pantC1 : Atom := mkC wPantC1.1 wPantC1.2
def pantC2 : Atom := mkC wPantC2.1 wPantC2.2
def amC1 : Atom := mkC wAmC1.1 wAmC1.2
def amO1 : Atom := mkO wAmC1.1 (wAmC1.2 - 0.88)
def amN1 : Atom := mkN wAmN1.1 wAmN1.2
def amH1 : Atom := mkH (wAmN1.1 + 0.15) (wAmN1.2 + 0.85)
def betC1 : Atom := mkC wBetC1.1 wBetC1.2
def betC2 : Atom := mkC wBetC2.1 wBetC2.2
def amC2 : Atom := mkC wAmC2.1 wAmC2.2
def amO2 : Atom := mkO wAmC2.1 (wAmC2.2 - 0.88)
def amN2 : Atom := mkN wAmN2.1 wAmN2.2
def amH2 : Atom := mkH (wAmN2.1 + 0.15) (wAmN2.2 + 0.85)
def cysC1 : Atom := mkC wCysC1.1 wCysC1.2
def cysC2 : Atom := mkC wCysC2.1 wCysC2.2
def sulfur : Atom := mkS wSulfur.1 wSulfur.2
def thioC : Atom := mkC wThioC.1 wThioC.2
def thioO : Atom := mkO wThioC.1 (wThioC.2 - 0.88)
def methyl : Atom := mkC wMethyl.1 wMethyl.2
def metH1 : Atom := mkH (wMethyl.1 + 0.55) (wMethyl.2 + 0.60)
def metH2 : Atom := mkH (wMethyl.1 + 0.55) (wMethyl.2 - 0.50)
def metH3 : Atom := mkH wMethyl.1 (wMethyl.2 + 0.30) 0.60

/-- `makeAcetylCoA` (first full-structure variant): adenine + ribose with a
3′-phosphate, 5′-pyrophosphate, pantetheine arm, and the acetyl thioester. -/
def makeAcetylCoA : MolGroup :=
  { atoms :=
      [C4, N3, C2, N1, C6, C5, N7, C8, N9, NH2N, NH2a, NH2b, HC2, HC8,
       C1p, O4p, C4p, C3p, C2p, O2p, H2p, O3p, C5p,
       P3, P3O1, P3O2, P3O3, Pa, PaO1, PaO2, PbO, Pb, PbO1, PbO2,
       PbLink, pantC1, pantC2, amC1, amO1, amN1, amH1, betC1, betC2,
       amC2, amO2, amN2, amH2, cysC1, cysC2, sulfur, thioC, thioO,
       methyl, metH1, metH2, metH3]
    bonds :=
      [mkBond C4.pos N3.pos, mkBond N3.pos C2.pos, mkBond C2.pos N1.pos,
       mkBond N1.pos C6.pos, mkBond C6.pos C5.pos, mkBond C5.pos C4.pos,
       mkBond C4.pos N7.pos, mkBond N7.pos C8.pos, mkBond C8.pos N9.pos,
       mkBond N9.pos C5.pos,
       mkBond C6.pos NH2N.pos, mkBond NH2N.pos NH2a.pos, mkBond NH2N.pos NH2b.pos,
       mkBond C2.pos HC2.pos, mkBond C8.pos HC8.pos,
       mkBond N9.pos C1p.pos, mkBond C1p.pos O4p.pos, mkBond O4p.pos C4p.pos,
       mkBond C4p.pos C3p.pos, mkBond C3p.pos C2p.pos, mkBond C2p.pos C1p.pos,
       mkBond C2p.pos O2p.pos, mkBond O2p.pos H2p.pos,
       mkBond C3p.pos O3p.pos,
       mkBond C4p.pos C5p.pos,
       mkBond O3p.pos P3.pos, mkBond P3.pos P3O1.pos, mkBond P3.pos P3O2.pos,
       mkBond P3.pos P3O3.pos,
       mkBond C5p.pos Pa.pos, mkBond Pa.pos PaO1.pos, mkBond Pa.pos PaO2.pos,
       mkBond Pa.pos PbO.pos, mkBond PbO.pos Pb.pos,
       mkBond Pb.pos PbO1.pos, mkBond Pb.pos PbO2.pos,
       mkBond Pb.pos PbLink.pos, mkBond PbLink.pos pantC1.pos,
       mkBond pantC1.pos pantC2.pos, mkBond pantC2.pos amC1.pos,
       mkBond amC1.pos amO1.pos, mkBond amC1.pos amN1.pos,
       mkBond amN1.pos amH1.pos, mkBond amN1.pos betC1.pos,
       mkBond betC1.pos betC2.pos, mkBond betC2.pos amC2.pos,
       mkBond amC2.pos amO2.pos, mkBond amC2.pos amN2.pos,
       mkBond amN2.pos amH2.pos, mkBond amN2.pos cysC1.pos,
       mkBond cysC1.pos cysC2.pos, mkBond cysC2.pos sulfur.pos,
       mkBond sulfur.pos thioC.pos, mkBond thioC.pos thioO.pos,
       mkBond thioC.pos methyl.pos, mkBond methyl.pos metH1.pos,
       mkBond methyl.pos metH2.pos, mkBond methyl.pos metH3.pos] }

end AcetylCoA

namespace Tryptophan

/-- `const SCALE = 1.6` of `makeTryptophan`. -/
def SCALE : ℝ := 1.6

/-- The `at` helper: unscaled coordinates multiplied by SCALE. -/
def pt (x y z : ℝ) : Vec3 := ⟨x * SCALE, y * SCALE, z * SCALE⟩

def ca : Atom := ⟨pt 0.0 0.0 0, 0x404040, 0.40⟩
def haC : Atom := ⟨pt 0.0 1.0 0, 0xffffff, 0.25⟩
def n : Atom := ⟨pt (-1.2) 0.0 0, 0x3050f8, 0.45⟩
def hn1 : Atom := ⟨pt (-1.8) 0.8 0, 0xffffff, 0.25⟩
def hn2 : Atom := ⟨pt (-1.8) (-0.8) 0, 0xffffff, 0.25⟩
def coo : Atom := ⟨pt 1.3 0.0 0, 0x404040, 0.40⟩
def oC : Atom := ⟨pt 1.9 0.9 0, 0xff3030, 0.45⟩
def oH : Atom := ⟨pt 1.9 (-0.9) 0, 0xff3030, 0.45⟩
def hoH : Atom := ⟨pt 2.8 (-0.9) 0, 0xffffff, 0.25⟩
def cb : Atom := ⟨pt 0.0 (-1.3) 0, 0x404040, 0.40⟩
def hb1 : Atom := ⟨pt (-0.7) (-1.8) 0.5, 0xffffff, 0.25⟩
def hb2 : Atom := ⟨pt 0.7 (-1.8) 0.5, 0xffffff, 0.25⟩
def b1 : Atom := ⟨pt 0.7 (-3.1) 0, 0x404040, 0.40⟩
def b2 : Atom := ⟨pt 0.7 (-4.5) 0, 0x404040, 0.40⟩
def b3 : Atom := ⟨pt 1.8 (-5.2) 0, 0x404040, 0.40⟩
def b4 : Atom := ⟨pt 3.0 (-4.5) 0, 0x404040, 0.40⟩
def b5 : Atom := ⟨pt 3.0 (-3.1) 0, 0x404040, 0.40⟩
def b6 : Atom := ⟨pt 1.8 (-2.4) 0, 0x404040, 0.40⟩

/-- Aromatic hydrogen pushed outward from the benzene centre `(1.85, −3.80)`
(computed from the already-scaled position of its parent atom). -/
def hbAtom (b : Atom) : Atom :=
  ⟨⟨b.pos.x + (b.pos.x - 1.85 * SCALE) * 0.35,
    b.pos.y + (b.pos.y + 3.80 * SCALE) * 0.35, 0⟩, 0xffffff, 0.22⟩

def c2 : Atom := ⟨pt (-0.5) (-3.8) 0, 0x404040, 0.40⟩
def c3 : Atom := ⟨pt (-0.5) (-4.8) 0, 0x404040, 0.40⟩
def indN : Atom := ⟨pt 0.1 (-5.6) 0, 0x3050f8, 0.45⟩
def hn : Atom := ⟨pt 0.1 (-6.5) 0, 0xffffff, 0.25⟩
def hc2 : Atom := ⟨pt (-1.35) (-3.4) 0, 0xffffff, 0.25⟩
def hc3 : Atom := ⟨pt (-1.35) (-5.2) 0, 0xffffff, 0.25⟩

/-- `makeTryptophan` (first full-structure variant): backbone, carboxyl,
benzene ring with aromatic hydrogens, and the fused pyrrole of the indole. -/
def makeTryptophan : MolGroup :=
  { atoms :=
      [ca, haC, n, hn1, hn2, coo, oC, oH, hoH, cb, hb1, hb2,
       b1, b2, b3, b4, b5, b6,
       hbAtom b3, hbAtom b4, hbAtom b5, hbAtom b6,
       c2, c3, indN, hn, hc2, hc3]
    bonds :=
      [mkBond ca.pos haC.pos,
       mkBond ca.pos n.pos, mkBond n.pos hn1.pos, mkBond n.pos hn2.pos,
       mkBond ca.pos coo.pos, mkBond coo.pos oC.pos, mkBond coo.pos oH.pos,
       mkBond oH.pos hoH.pos,
       mkBond ca.pos cb.pos, mkBond cb.pos hb1.pos, mkBond cb.pos hb2.pos,
       mkBond b1.pos b2.pos, mkBond b2.pos b3.pos, mkBond b3.pos b4.pos,
       mkBond b4.pos b5.pos, mkBond b5.pos b6.pos, mkBond b6.pos b1.pos,
       mkBond b3.pos (hbAtom b3).pos, mkBond b4.pos (hbAtom b4).pos,
       mkBond b5.pos (hbAtom b5).pos, mkBond b6.pos (hbAtom b6).pos,
       mkBond c2.pos b1.pos, mkBond b2.pos indN.pos, mkBond indN.pos c3.pos,
       mkBond c3.pos c2.pos, mkBond indN.pos hn.pos,
       mkBond c2.pos hc2.pos, mkBond c3.pos hc3.pos,
       mkBond cb.pos c2.pos] }

end Tryptophan

namespace AlphaHelix

/-- `const turn = (2 * Math.PI) / 3.6` of `makeAlphaHelix`. -/
def turn : ℝ := 2 * Real.pi / 3.6

/-- Helix angle of residue `i`. -/
def angle (i : ℕ) : ℝ := i * turn

/-- Backbone Cα of residue `i`: radius 1.2, rise 0.5 per residue. -/
def caPos (i : ℕ) : Vec3 :=
  ⟨Real.cos (angle i) * 1.2, i * 0.5, Real.sin (angle i) * 1.2⟩

/-- Amide N of residue `i`: slightly behind and below Cα on the helix tangent. -/
def nPos (i : ℕ) : Vec3 :=
  ⟨(caPos i).x + Real.cos (angle i - 0.3) * 0.6, (caPos i).y + (-0.3),
   (caPos i).z + Real.sin (angle i - 0.3) * 0.6⟩

/-- Carbonyl C of residue `i`: slightly ahead and above Cα. -/
def cPos (i : ℕ) : Vec3 :=
  ⟨(caPos i).x + Real.cos (angle i + 0.3) * 0.6, (caPos i).y + 0.3,
   (caPos i).z + Real.sin (angle i + 0.3) * 0.6⟩

/-- Carbonyl O of residue `i`: offset radially outward and up from C. -/
def oPos (i : ℕ) : Vec3 :=
  ⟨(cPos i).x + Real.cos (angle i + 0.3) * 0.55, (cPos i).y + 0.4,
   (cPos i).z + Real.sin (angle i + 0.3) * 0.55⟩

/-- The distinct colour `0x00dd88` of the inferred hydrogen bonds. -/
def hColor : ℕ := 0x00dd88

/-- The four atoms `group.add(n, ca, c, o)` of residue `i`. -/
def residueAtoms (i : ℕ) : List Atom :=
  [⟨nPos i, 0x3050f8, 0.32⟩, ⟨caPos i, 0xaaaaaa, 0.38⟩,
   ⟨cPos i, 0x404040, 0.30⟩, ⟨oPos i, 0xff3030, 0.28⟩]

/-- Per-residue bonds: N–Cα, Cα–C, C=O, and for `i > 0` the peptide bond
C(i−1)–N(i). -/
def residueBonds (i : ℕ) : List Bond :=
  [mkBond (nPos i) (caPos i), mkBond (caPos i) (cPos i),
   mkBond (cPos i) (oPos i)] ++
    (if 0 < i then [mkBond (cPos (i - 1)) (nPos i)] else [])

/-- The inferred i,i−4 hydrogen bonds: `for (i = 4; i < residues; i++)`
connects residue `i`'s N to residue `i−4`'s O in the distinct colour. -/
def hBonds (residues : ℕ) : List Bond :=
  (List.range (residues - 4)).map fun j => mkBond (nPos (4 + j)) (oPos j) hColor

/-- `makeAlphaHelix` generalized over the residue count (the source fixes
`const residues = 12`; see `makeAlphaHelix`). -/
def makeAlphaHelixN (residues : ℕ) : MolGroup :=
  { atoms := (List.range residues).flatMap residueAtoms
    bonds := (List.range residues).flatMap residueBonds ++ hBonds residues }

/-- `makeAlphaHelix` (first full-structure variant) with the source's
`residues = 12`. -/
def makeAlphaHelix : MolGroup := makeAlphaHelixN 12

end AlphaHelix

namespace Cholesterol

/-- `const S = 0.9` scale of `makeCholesterol`. -/
def S : ℝ := 0.9

/-- Hexagon circumradius `r = 1.2 * S`. -/
def r : ℝ := 1.2 * S

/-- Distance between fused hexagon centres, `r * Math.sqrt(3)`. -/
def hexStep : ℝ := r * Real.sqrt 3

/-- Pentagon circumradius with the same edge length as the hexagons. -/
def pentR : ℝ := r / (2 * Real.sin (Real.pi / 5))

/-- Pentagon apothem. -/
def apothem : ℝ := pentR * Real.cos (Real.pi / 5)

def PUCK_HEX : ℝ := 0.22 * S
def PUCK_PNT : ℝ := 0.18 * S

/-- Hexagon vertex angle `Math.PI / 6 + i * (Math.PI / 3)`. -/
def hexAngle (i : ℕ) : ℝ := Real.pi / 6 + i * (Real.pi / 3)

/-- Alternating out-of-plane pucker of hexagon vertex `i`. -/
def hexPucker (i : ℕ) : ℝ := if i % 2 = 0 then PUCK_HEX else -PUCK_HEX

/-- Vertex `i` of the hexagon centred at `(cx, cy)` (`makeHexRing`). -/
def hexPos (cx cy : ℝ) (i : ℕ) : Vec3 :=
  ⟨cx + r * Real.cos (hexAngle i), cy + r * Real.sin (hexAngle i), hexPucker i⟩

/-- The six atoms of one `makeHexRing(cx, cy)` call, in creation order. -/
def hexRingAtoms (cx cy : ℝ) : List Atom :=
  (List.range 6).map fun i => ⟨hexPos cx cy i, 0x404040, 0.35⟩

/-- The six cyclic bonds of one `makeHexRing(cx, cy)` call. -/
def hexRingBonds (cx cy : ℝ) : List Bond :=
  (List.range 6).map fun i => mkBond (hexPos cx cy i) (hexPos cx cy ((i + 1) % 6))

/-- Ring A vertex positions (`makeHexRing(0, 0)`). -/
def ringApos (i : ℕ) : Vec3 := hexPos 0 0 i

/-- Ring B vertex positions (`makeHexRing(hexStep, 0)`). -/
def ringBpos (i : ℕ) : Vec3 := hexPos hexStep 0 i

/-- Ring C vertex positions (`makeHexRing(2 * hexStep, 0)`). -/
def ringCpos (i : ℕ) : Vec3 := hexPos (2 * hexStep) 0 i

/-- `Math.atan2(y, x)`, modelled by the complex argument. -/
def atan2 (y x : ℝ) : ℝ := Complex.arg ⟨x, y⟩

/-- Pentagon centre x: midpoint of the shared edge (ringC atoms 0 and 5) plus
the apothem, to the right. -/
def pentCx : ℝ := ((ringCpos 0).x + (ringCpos 5).x) / 2 + apothem

/-- Pentagon centre y. -/
def pentCy : ℝ := ((ringCpos 0).y + (ringCpos 5).y) / 2

/-- Angle from the pentagon centre to the lower shared atom (start of D[0]). -/
def startAngle : ℝ := atan2 ((ringCpos 5).y - pentCy) ((ringCpos 5).x - pentCx)

/-- Position of pentagon slot `i` of `makePentRing(ringC[0], ringC[5])`:
slots 0 and 1 *reuse* the existing shared atoms (D[0] = C[5], D[1] = C[0]);
slots 2–4 are new atoms stepping clockwise by 72°. -/
def pentPos (i : ℕ) : Vec3 :=
  if i = 0 then ringCpos 5
  else if i = 1 then ringCpos 0
  else
    ⟨pentCx + pentR * Real.cos (startAngle - i * (2 * Real.pi / 5)),
     pentCy + pentR * Real.sin (startAngle - i * (2 * Real.pi / 5)),
     if i % 2 = 0 then PUCK_PNT else -PUCK_PNT⟩

/-- OH oxygen on ring A atom 1: `c3.position + (0, 0.9·S, 0.3·S)`. -/
def ohPos : Vec3 := (ringApos 1).add ⟨0, 0.9 * S, 0.3 * S⟩

/-- H on the OH. -/
def hOhPos : Vec3 := ohPos.add ⟨0, 0.5 * S, 0.2 * S⟩

/-- Angular methyl at C10 (ring A atom 0), displaced along +z. -/
def me10Pos : Vec3 :=
  ⟨(ringApos 0).x, (ringApos 0).y, (ringApos 0).z + 0.95 * S⟩

/-- Angular methyl at C13 (ring B atom 0), displaced along +z. -/
def me13Pos : Vec3 :=
  ⟨(ringBpos 0).x, (ringBpos 0).y, (ringBpos 0).z + 0.95 * S⟩

/-- The eight zig-zag step vectors of the isooctyl tail. -/
def tailSteps : List Vec3 :=
  [⟨1.10 * S, 0.30 * S, 0.30 * S⟩, ⟨1.10 * S, -0.30 * S, -0.30 * S⟩,
   ⟨1.05 * S, 0.25 * S, 0.25 * S⟩, ⟨1.05 * S, -0.20 * S, -0.25 * S⟩,
   ⟨1.00 * S, 0.20 * S, 0.20 * S⟩, ⟨1.00 * S, -0.15 * S, -0.20 * S⟩,
   ⟨0.90 * S, 0.10 * S, 0.15 * S⟩, ⟨0.90 * S, -0.10 * S, -0.15 * S⟩]

/-- Tail chain positions: `tailPos 0` is the anchor `ringD[2]`; `tailPos (k+1)`
adds the k-th step vector. -/
def tailPos : ℕ → Vec3
  | 0 => pentPos 2
  | k + 1 => (tailPos k).add (tailSteps.getD k ⟨0, 0, 0⟩)

/-- Base point of the isopropyl branch: the tail end displaced by
`(−0.90·S, 0, 0)` — a computed point, not an atom position. -/
def branchBase : Vec3 := (tailPos 8).add ⟨-0.90 * S, 0, 0⟩

/-- The branch methyl atom position. -/
def branchAtomPos : Vec3 :=
  ⟨branchBase.x + 0.5 * S, branchBase.y + 0.6 * S, branchBase.z + 0.2 * S⟩

/-- Axial H on ring A atom 3. -/
def hAxPos : Vec3 := (ringApos 3).add ⟨-0.35 * S, -0.20 * S, -0.35 * S⟩

/-- `makeCholesterol` (first full-structure variant): three fused hexagons,
a pentagon fused by anchor reuse, OH / methyl substituents, the isooctyl
tail, the isopropyl branch, and an axial H. -/
def makeCholesterol : MolGroup :=
  { atoms :=
      hexRingAtoms 0 0 ++ hexRingAtoms hexStep 0 ++ hexRingAtoms (2 * hexStep) 0 ++
      [⟨pentPos 2, 0x404040, 0.35⟩, ⟨pentPos 3, 0x404040, 0.35⟩,
       ⟨pentPos 4, 0x404040, 0.35⟩] ++
      [⟨ohPos, 0xff3030, 0.42⟩, ⟨hOhPos, 0xffffff, 0.22⟩,
       ⟨me10Pos, 0x404040, 0.30⟩, ⟨me13Pos, 0x404040, 0.30⟩] ++
      ((List.range 8).map fun k => ⟨tailPos (k + 1), 0x404040, 0.28⟩) ++
      [⟨branchAtomPos, 0x404040, 0.26⟩, ⟨hAxPos, 0xffffff, 0.20⟩]
    bonds :=
      hexRingBonds 0 0 ++ hexRingBonds hexStep 0 ++ hexRingBonds (2 * hexStep) 0 ++
      ((List.range 5).map fun i => mkBond (pentPos i) (pentPos ((i + 1) % 5))) ++
      [mkBond (ringApos 1) ohPos, mkBond ohPos hOhPos,
       mkBond (ringApos 0) me10Pos, mkBond (ringBpos 0) me13Pos] ++
      ((List.range 8).map fun k => mkBond (tailPos k) (tailPos (k + 1))) ++
      [mkBond branchBase branchAtomPos] ++
      [mkBond (ringApos 3) hAxPos] }

/-- Ring A as indices into `makeCholesterol.atoms` (creation order). -/
def ringAIdx : List ℕ := [0, 1, 2, 3, 4, 5]

/-- Ring B: six *freshly created* atoms (indices 6–11), none reused from A. -/
def ringBIdx : List ℕ := [6, 7, 8, 9, 10, 11]

/-- Ring C: six freshly created atoms (indices 12–17). -/
def ringCIdx : List ℕ := [12, 13, 14, 15, 16, 17]

/-- Ring D (`makePentRing`): slots 0 and 1 are the *existing* atoms C[5]
(index 17) and C[0] (index 12); only slots 2–4 (indices 18–20) are new. -/
def ringDIdx : List ℕ := [17, 12, 18, 19, 20]

end Cholesterol

/-- The molecule identifiers of `molRegistry` / `moleculeBuilders`: a closed
set of nine ids. -/
inductive MolId
  | glucose
  | alanine
  | atp
  | dna
  | dnacg
  | acetylcoa
  | tryptophan
  | cholesterol
  | alphahelix
deriving DecidableEq

/-- Descriptive metadata of a registry entry (`molRegistry[key]`). -/
structure MolInfo where
  title : String
  type : String
  role : String
  struct : String
  feat : String
deriving DecidableEq

/-- The static registry `molRegistry`. -/
def molRegistry : MolId → MolInfo
  | .glucose => ⟨"Glucose (C₆H₁₂O₆)", "Monosaccharide", "Primary energy source",
      "6-carbon ring", "Glycolysis substrate"⟩
  | .alanine => ⟨"Alanine (C₃H₇NO₂)", "Amino acid", "Protein building block",
      "Nonpolar side chain", "Ala or A"⟩
  | .atp => ⟨"ATP (C₁₀H₁₆N₅O₁₃P₃)", "Nucleotide", "Energy currency",
      "Three phosphates", "ΔG° = -30.5 kJ/mol"⟩
  | .dna => ⟨"DNA Base Pair (A-T)", "Nucleic acid", "Genetic storage",
      "2 H-bonds", "Watson-Crick pairing"⟩
  | .dnacg => ⟨"DNA Base Pair (C-G)", "Nucleic acid", "Genetic storage",
      "3 H-bonds", "Watson-Crick pairing"⟩
  | .acetylcoa => ⟨"Acetyl-CoA", "Coenzyme", "Metabolic intermediate",
      "2-carbon acetyl", "TCA entry"⟩
  | .tryptophan => ⟨"Tryptophan (C₁₁H₁₂N₂O₂)", "Amino acid",
      "Protein building block", "Aromatic side chain", "Precursor to serotonin"⟩
  | .cholesterol => ⟨"Cholesterol (C₂₇H₄₆O)", "Steroid", "Membrane component",
      "Four rings", "Hormone precursor"⟩
  | .alphahelix => ⟨"Alpha Helix", "Protein secondary structure",
      "Structural motif", "Right-handed coil", "Stabilized by H-bonds"⟩

/-- `moleculeBuilders[name]`: string-keyed lookup, `undefined` (`none`) for
names absent from the table. -/
def builderLookup (name : String) : Option MolId :=
  if name = "glucose" then some .glucose
  else if name = "alanine" then some .alanine
  else if name = "atp" then some .atp
  else if name = "dna" then some .dna
  else if name = "dnacg" then some .dnacg
  else if name = "acetylcoa" then some .acetylcoa
  else if name = "tryptophan" then some .tryptophan
  else if name = "cholesterol" then some .cholesterol
  else if name = "alphahelix" then some .alphahelix
  else none

/-- Builder dispatch: each id's builder function. -/
def build : MolId → MolGroup
  | .glucose => Glucose.makeGlucose
  | .alanine => Alanine.makeAlanine
  | .atp => ATP.makeATP
  | .dna => DNA.makeDNA
  | .dnacg => DNACG.makeDNACG
  | .acetylcoa => AcetylCoA.makeAcetylCoA
  | .tryptophan => Tryptophan.makeTryptophan
  | .cholesterol => Cholesterol.makeCholesterol
  | .alphahelix => AlphaHelix.makeAlphaHelix

/-- The bonds of each builder whose endpoints are computed free points rather
than atom positions: the inter-base hydrogen-bond connectors of the two DNA
base-pair builders and cholesterol's isopropyl branch bond. -/
def connectorExceptions : MolId → List Bond
  | .dna => DNA.connectors
  | .dnacg => DNACG.connectors
  | .cholesterol => [mkBond Cholesterol.branchBase Cholesterol.branchAtomPos]
  | _ => []

/-- The viewer session state (the refs and React state of `MoleculeViewer`
relevant to loading): which group is attached to the scene, the `molRef`
reference (which can go stale), a cumulative log of disposed groups, the
current molecule id string, its metadata, and the camera distance. -/
structure ViewerState where
  sceneMol : Option MolId
  molRef : Option MolId
  disposed : List MolId
  currentMol : String
  info : Option MolInfo
  zoom : ℝ

/-- `loadMolecule(name)` on a live session (the scene exists after init):
*first*, if `molRef.current` is set, that group is removed from the scene and
every mesh's geometry/material disposed — unconditionally, before the registry
lookup; *then*, only if `moleculeBuilders[name]` exists, the new molecule is
built, attached, and `currentMol`/`info` updated. -/
def loadMolecule (st : ViewerState) (name : String) : ViewerState :=
  let st1 :=
    match st.molRef with
    | none => st
    | some m => { st with sceneMol := none, disposed := st.disposed ++ [m] }
  match builderLookup name with
  | none => st1
  | some id =>
    { st1 with
        sceneMol := some id
        molRef := some id
        currentMol := name
        info := some (molRegistry id) }

/-- A concrete live-session state with glucose loaded (as after the initial
`loadMolecule("glucose")`), used to instantiate the viewer theorems. -/
def demoLoadedState : ViewerState :=
  { sceneMol := some .glucose
    molRef := some .glucose
    disposed := []
    currentMol := "glucose"
    info := some (molRegistry .glucose)
    zoom := 15 }

/-- The wheel handler's zoom update:
`camera.position.z += e.deltaY * 0.01` then clamp via
`Math.max(5, Math.min(30, z))`. -/
def scrollZoom (z deltaY : ℝ) : ℝ := max 5 (min 30 (z + deltaY * 0.01))

/-- The wheel handler at the state level: it reads and writes only the camera
distance — no check of drag state or of whether a molecule is loaded. -/
def wheelStep (st : ViewerState) (deltaY : ℝ) : ViewerState :=
  { st with zoom := scrollZoom st.zoom deltaY }

/-- A saved view record (`{id, name, molecule, rotation, zoom, time}`);
`id` is `Date.now()` and `time` the ISO timestamp of the same instant, both
modelled by the abstract clock value `now`. -/
structure SavedView where
  id : ℕ
  name : String
  molecule : String
  rotation : Vec3
  zoom : ℝ
  time : ℕ

/-- The characters ECMAScript `String.prototype.trim` strips: WhiteSpace
(tab, VT, FF, space, NBSP, BOM, Unicode space separators) and LineTerminator
(LF, CR, LS, PS). -/
def isJsWhitespace (c : Char) : Bool :=
  c.val = 0x09 || c.val = 0x0A || c.val = 0x0B || c.val = 0x0C || c.val = 0x0D ||
  c.val = 0x20 || c.val = 0xA0 || c.val = 0x1680 ||
  (0x2000 ≤ c.val && c.val ≤ 0x200A) ||
  c.val = 0x2028 || c.val = 0x2029 || c.val = 0x202F || c.val = 0x205F ||
  c.val = 0x3000 || c.val = 0xFEFF

/-- `String.prototype.trim`: strip JS whitespace from both ends. -/
def jsTrim (s : String) : String :=
  ⟨((s.data.dropWhile isJsWhitespace).reverse.dropWhile isJsWhitespace).reverse⟩

/-- The view-persistence state: the React `savedViews` array plus the durable
`localStorage["molViews"]` entry, modelled at the record level (the JS
serializes with `JSON.stringify`). -/
structure ViewStore where
  views : List SavedView
  durable : Option (List SavedView)

/-- `saveView()`: `if (!viewName.trim() || !molRef.current) return;` — a name
that trims to empty (so empty or all-whitespace) or an unloaded molecule is
rejected with no record and no durable write; otherwise a record holding the
*untrimmed* name verbatim is appended, the whole collection persisted, and the
name input cleared.  Returns the updated store and the new `viewName` state. -/
def saveView (vs : ViewStore) (viewName : String) (molRef : Option MolId)
    (currentMol : String) (rotation : Vec3) (zoom : ℝ) (now : ℕ) :
    ViewStore × String :=
  if jsTrim viewName = "" ∨ molRef = none then (vs, viewName)
  else
    let view : SavedView :=
      { id := now, name := viewName, molecule := currentMol,
        rotation := rotation, zoom := zoom, time := now }
    (⟨vs.views ++ [view], some (vs.views ++ [view])⟩, "")

end Viewer3D

namespace JsonModel

/-- A JSON value, as produced by `JSON.parse`. -/
inductive Json where
  | null : Json
  | bool (b : Bool) : Json
  | num (q : ℚ) : Json
  | str (s : String) : Json
  | arr (xs : List Json) : Json
  | obj (kvs : List (String × Json)) : Json

/-- JSON insignificant whitespace (space, tab, LF, CR). -/
def isWs (c : Char) : Bool :=
  c = ' ' || c = '\t' || c = '\n' || c = '\r'

/-- Skip insignificant whitespace. -/
def skipWs (cs : List Char) : List Char := cs.dropWhile isWs

/-- Hex digit value. -/
def hexVal (c : Char) : Option ℕ :=
  if '0' ≤ c ∧ c ≤ '9' then some (c.toNat - '0'.toNat)
  else if 'a' ≤ c ∧ c ≤ 'f' then some (c.toNat - 'a'.toNat + 10)
  else if 'A' ≤ c ∧ c ≤ 'F' then some (c.toNat - 'A'.toNat + 10)
  else none

/-- Parse the body of a JSON string after the opening quote, handling the
escape sequences; returns the string's characters and the remaining input. -/
def parseStringBody : List Char → Option (List Char × List Char)
  | [] => none
  | '"' :: rest => some ([], rest)
  | '\\' :: e :: rest =>
    match e with
    | '"' => (parseStringBody rest).map fun (s, r) => ('"' :: s, r)
    | '\\' => (parseStringBody rest).map fun (s, r) => ('\\' :: s, r)
    | '/' => (parseStringBody rest).map fun (s, r) => ('/' :: s, r)
    | 'b' => (parseStringBody rest).map fun (s, r) => (Char.ofNat 8 :: s, r)
    | 'f' => (parseStringBody rest).map fun (s, r) => (Char.ofNat 12 :: s, r)
    | 'n' => (parseStringBody rest).map fun (s, r) => ('\n' :: s, r)
    | 'r' => (parseStringBody rest).map fun (s, r) => ('\r' :: s, r)
    | 't' => (parseStringBody rest).map fun (s, r) => ('\t' :: s, r)
    | 'u' =>
      match rest with
      | h1 :: h2 :: h3 :: h4 :: rest2 =>
        match hexVal h1, hexVal h2, hexVal h3, hexVal h4 with
        | some a, some b, some c, some d =>
          (parseStringBody rest2).map fun (s, r) =>
            (Char.ofNat (((a * 16 + b) * 16 + c) * 16 + d) :: s, r)
        | _, _, _, _ => none
      | _ => none
    | _ => none
  | c :: rest => (parseStringBody rest).map fun (s, r) => (c :: s, r)

/-- Parse a run of decimal digits (at least one); returns its value,
the digit count, and the rest. -/
def parseDigits : List Char → ℕ → ℕ → Option (ℕ × ℕ × List Char)
  | c :: rest, acc, cnt =>
    if '0' ≤ c ∧ c ≤ '9' then
      match parseDigits rest (acc * 10 + (c.toNat - '0'.toNat)) (cnt + 1) with
      | some out => some out
      | none => some (acc * 10 + (c.toNat - '0'.toNat), cnt + 1, rest)
    else if cnt = 0 then none else some (acc, cnt, c :: rest)
  | [], acc, cnt => if cnt = 0 then none else some (acc, cnt, [])

/-- Parse a JSON number starting at the given input. -/
def parseNumber (cs : List Char) : Option (ℚ × List Char) := do
  let (neg, cs1) := match cs with
    | '-' :: rest => (true, rest)
    | _ => (false, cs)
  let (intPart, _, cs2) ← parseDigits cs1 0 0
  let (frac, cs3) := match cs2 with
    | '.' :: rest =>
      match parseDigits rest 0 0 with
      | some (f, n, r) => ((f : ℚ) / 10 ^ n, r)
      | none => (0, '.' :: rest)
    | _ => ((0 : ℚ), cs2)
  let mantissa : ℚ := (if neg then -1 else 1) * ((intPart : ℚ) + frac)
  match cs3 with
  | 'e' :: rest | 'E' :: rest =>
    let (esign, rest2) := match rest with
      | '+' :: r => ((1 : ℤ), r)
      | '-' :: r => ((-1 : ℤ), r)
      | _ => ((1 : ℤ), rest)
    match parseDigits rest2 0 0 with
    | some (e, _, r) =>
      some (mantissa * (10 : ℚ) ^ (esign * (e : ℤ)), r)
    | none => none
  | _ => some (mantissa, cs3)

mutual

/-- Parse a JSON value (fuelled; nested calls decrease `fuel`). -/
def parseValue : ℕ → List Char → Option (Json × List Char)
  | 0, _ => none
  | fuel + 1, cs =>
    match skipWs cs with
    | [] => none
    | '"' :: rest => (parseStringBody rest).map fun (s, r) => (Json.str ⟨s⟩, r)
    | '[' :: rest => parseArrayItems fuel (skipWs rest) true
    | '{' :: rest => parseObjectItems fuel (skipWs rest) true
    | 't' :: 'r' :: 'u' :: 'e' :: rest => some (Json.bool true, rest)
    | 'f' :: 'a' :: 'l' :: 's' :: 'e' :: rest => some (Json.bool false, rest)
    | 'n' :: 'u' :: 'l' :: 'l' :: rest => some (Json.null, rest)
    | other => (parseNumber other).map fun (q, r) => (Json.num q, r)

/-- Parse array items after `[` (when `first`, a `]` may close immediately). -/
def parseArrayItems : ℕ → List Char → Bool → Option (Json × List Char)
  | 0, _, _ => none
  | _ + 1, ']' :: rest, true => some (Json.arr [], rest)
  | fuel + 1, cs, _ =>
    match parseValue fuel cs with
    | none => none
    | some (v, r1) =>
      match skipWs r1 with
      | ',' :: r2 =>
        match parseArrayItems fuel (skipWs r2) false with
        | some (Json.arr vs, r3) => some (Json.arr (v :: vs), r3)
        | _ => none
      | ']' :: r2 => some (Json.arr [v], r2)
      | _ => none

/-- Parse object members after `{` (when `first`, a `}` may close
immediately). -/
def parseObjectItems : ℕ → List Char → Bool → Option (Json × List Char)
  | 0, _, _ => none
  | _ + 1, '}' :: rest, true => some (Json.obj [], rest)
  | fuel + 1, cs, _ =>
    match skipWs cs with
    | '"' :: rest =>
      match parseStringBody rest with
      | none => none
      | some (k, r1) =>
        match skipWs r1 with
        | ':' :: r2 =>
          match parseValue fuel r2 with
          | none => none
          | some (v, r3) =>
            match skipWs r3 with
            | ',' :: r4 =>
              match parseObjectItems fuel (skipWs r4) false with
              | some (Json.obj kvs, r5) => some (Json.obj ((⟨k⟩, v) :: kvs), r5)
              | _ => none
            | '}' :: r4 => some (Json.obj [(⟨k⟩, v)], r4)
            | _ => none
        | _ => none
    | _ => none

end

/-- `JSON.parse`: parse one value and require only whitespace to follow;
`none` models a thrown `SyntaxError`. -/
def jsonParse (s : String) : Option Json :=
  match parseValue (s.length + 1) s.data with
  | some (v, rest) => if skipWs rest = [] then some v else none
  | none => none

end JsonModel

namespace Viewer3D

open JsonModel

/-- The saved-views load effect of the init `useEffect`:
`JSON.parse(localStorage.getItem("molViews") || "[]")`.  An absent entry
(JS `null`) and the empty string are both falsy and fall back to `"[]"`;
the parse of a corrupt entry throws (`none`) — there is no try/catch. -/
def loadSavedViews (stored : Option String) : Option Json :=
  let s :=
    match stored with
    | none => "[]"
    | some str => if str = "" then "[]" else str
  jsonParse s

end Viewer3D

end

namespace Kinetics

lemma fitUpdate_eq_argAux (pts : List DataPoint) (o : Option (ℕ × ℕ)) (c : ℕ × ℕ) :
    fitUpdate pts (o.map (mkBest pts)) c =
      (List.argAux (fun b d => candErr pts b < candErr pts d) o c).map (mkBest pts) := by
  cases o with
  | none => rfl
  | some a =>
    by_cases h : candErr pts c < candErr pts a <;>
      simp [fitUpdate, List.argAux, mkBest, h]

lemma foldl_fitUpdate_eq_argAux (pts : List DataPoint) :
    ∀ (l : List (ℕ × ℕ)) (o : Option (ℕ × ℕ)),
      l.foldl (fitUpdate pts) (o.map (mkBest pts)) =
        (l.foldl (List.argAux fun b d => candErr pts b < candErr pts d) o).map (mkBest pts)
  | [], o => rfl
  | c :: tl, o => by
    rw [List.foldl_cons, List.foldl_cons, fitUpdate_eq_argAux,
      foldl_fitUpdate_eq_argAux pts tl]

/-- The core of `fitParameters` is `List.argmin` of the candidate error over the
candidate list: keep the strictly better candidate, first-found wins ties. -/
lemma fitCore_eq_argmin (pts : List DataPoint) :
    fitCandidates.foldl (fitUpdate pts) none =
      (fitCandidates.argmin (candErr pts)).map (mkBest pts) := by
  have h := foldl_fitUpdate_eq_argAux pts fitCandidates none
  simpa [List.argmin] using h

lemma fitCandidates_ne_nil : fitCandidates ≠ [] := by
  have h : (1, 1) ∈ fitCandidates := by
    simp only [fitCandidates, List.mem_flatMap, List.mem_map, kmGrid, vmaxGrid]
    exact ⟨1, ⟨0, by simp⟩, 1, ⟨0, by simp⟩, rfl⟩
  intro hnil
  rw [hnil] at h
  exact absurd h (List.not_mem_nil _)

/-- Membership in the candidate grid, stated arithmetically:
`1 ≤ Km ≤ 500` and `Vmax ∈ {1, 6, …, 996}`. -/
lemma mem_fitCandidates_iff (c : ℕ × ℕ) :
    c ∈ fitCandidates ↔
      (1 ≤ c.1 ∧ c.1 ≤ 500) ∧ ∃ j < 200, c.2 = 1 + 5 * j := by
  obtain ⟨km, vm⟩ := c
  simp only [fitCandidates, List.mem_flatMap, List.mem_map, kmGrid, vmaxGrid,
    List.mem_range]
  constructor
  · rintro ⟨a, ⟨i, hi, rfl⟩, b, ⟨j, hj, rfl⟩, h⟩
    obtain ⟨rfl, rfl⟩ := Prod.mk.injEq .. ▸ h
    refine ⟨⟨Nat.le_add_left 1 i, by omega⟩, j, hj, rfl⟩
  · rintro ⟨⟨h1, h2⟩, j, hj, rfl⟩
    exact ⟨km, ⟨km - 1, by omega⟩, 1 + 5 * j, ⟨j, hj, rfl⟩, rfl⟩

lemma iterCount_succ {Smax step S : ℚ} (hstep : 0 < step) (h : S ≤ Smax + eps) :
    iterCount Smax step S = iterCount Smax step (S + step) + 1 := by
  unfold iterCount
  have h0 : (0 : ℚ) ≤ (Smax + eps - S) / step :=
    div_nonneg (by linarith) hstep.le
  have hf0 : 0 ≤ ⌊(Smax + eps - S) / step⌋ := Int.floor_nonneg.mpr h0
  have heq : (Smax + eps - (S + step)) / step = (Smax + eps - S) / step - 1 := by
    field_simp
    ring
  rw [heq, Int.floor_sub_one]
  omega

lemma iterCount_zero {Smax step S : ℚ} (hstep : 0 < step) (h : ¬S ≤ Smax + eps) :
    iterCount Smax step S = 0 := by
  unfold iterCount
  have hneg : (Smax + eps - S) / step < 0 :=
    div_neg_of_neg_of_pos (by linarith) hstep
  have : ⌊(Smax + eps - S) / step⌋ < 0 := by
    exact_mod_cast Int.floor_lt.mpr (by exact_mod_cast hneg)
  omega

/-- Closed form of the generation loop for `step > 0`: starting at substrate
value `S` (sample index `k`) with enough fuel, the loop emits exactly the
samples `S + j·step` for `j < iterCount Smax step S`. -/
lemma genLoop_closed (noise : Bool) (rand : ℕ → ℚ) (Vmax Km Smax step : ℚ)
    (hstep : 0 < step) :
    ∀ (fuel k : ℕ) (S : ℚ), iterCount Smax step S ≤ fuel →
      genLoop noise rand Vmax Km Smax step k S fuel =
        (List.range (iterCount Smax step S)).map fun j =>
          { S := jsToFixed 3 (S + j * step),
            v := jsToFixed 4 (sampleV noise rand (k + j) Vmax Km (S + j * step)) }
  | 0, k, S, hfuel => by
    have h0 : iterCount Smax step S = 0 := Nat.le_zero.mp hfuel
    rw [h0]
    rfl
  | fuel + 1, k, S, hfuel => by
    by_cases h : S ≤ Smax + eps
    · have hsucc := iterCount_succ hstep h
      have hle : iterCount Smax step (S + step) ≤ fuel := by omega
      have ih := genLoop_closed noise rand Vmax Km Smax step hstep fuel (k + 1)
        (S + step) hle
      rw [genLoop, if_pos h, ih, hsucc, List.range_succ_eq_map]
      simp only [List.map_cons, List.map_map]
      congr 1
      · simp
      · apply List.map_congr_left
        intro j _
        have hq : S + (↑(j + 1) : ℚ) * step = S + step + (j : ℚ) * step := by
          push_cast; ring
        have hk : k + (j + 1) = k + 1 + j := by omega
        simp only [Function.comp_apply, Nat.succ_eq_add_one, hq, hk]
    · rw [genLoop, if_neg h, iterCount_zero hstep h]
      rfl

/-- `generateData` in closed form (`step > 0`): `N = ⌊(Smax + 1e-9)/step⌋ + 1`
samples, at `S = k·step` for `k < N`. -/
lemma generateData_closed (E kcat Km Smax step : ℚ) (noise : Bool) (rand : ℕ → ℚ)
    (hstep : 0 < step) :
    generateData E kcat Km Smax step noise rand =
      (List.range (iterCount Smax step 0)).map fun j =>
        { S := jsToFixed 3 (j * step),
          v := jsToFixed 4 (sampleV noise rand j (kcat * E) Km (j * step)) } := by
  have hfuel : iterCount Smax step 0 = genFuel Smax step := by
    unfold iterCount genFuel
    rw [sub_zero]
  have h := genLoop_closed noise rand (kcat * E) Km Smax step hstep
    (genFuel Smax step) 0 0 (le_of_eq hfuel)
  unfold generateData
  rw [h]
  apply List.map_congr_left
  intro j _
  simp

lemma fitParameters_some_eq (pts : List DataPoint) :
    fitParameters (some pts) =
      (fitCandidates.foldl (fitUpdate pts) none).map (fun b =>
        { Vmax := b.vmaxTest, Km := b.kmTest, err := b.err,
          rmseSq := b.err / (pts.length : ℚ) }) := rfl

/-- `List.argmin` keeps the first-found minimum: the list splits around the
returned element, and everything strictly before it has strictly larger key. -/
lemma argmin_split {α : Type} {f : α → ℚ} :
    ∀ {l : List α} {m : α}, l.argmin f = some m →
      ∃ pre post, l = pre ++ m :: post ∧ ∀ d ∈ pre, f m < f d
  | [], m, hm => by simp [List.argmin_nil] at hm
  | a :: tl, m, hm => by
    rw [List.argmin_cons] at hm
    cases h : tl.argmin f with
    | none =>
      rw [h] at hm
      obtain rfl : a = m := by simpa using hm
      exact ⟨[], tl, rfl, by simp⟩
    | some c =>
      rw [h] at hm
      dsimp only at hm
      by_cases h1 : f c < f a
      · rw [if_pos h1] at hm
        obtain rfl : c = m := by simpa using hm
        obtain ⟨pre, post, hsplit, hpre⟩ := argmin_split h
        refine ⟨a :: pre, post, by rw [hsplit]; rfl, ?_⟩
        intro d hd
        rcases List.mem_cons.mp hd with rfl | hd2
        · exact h1
        · exact hpre d hd2
      · rw [if_neg h1] at hm
        obtain rfl : a = m := by simpa using hm
        exact ⟨[], tl, rfl, by simp⟩

lemma fitParameters_some_isSome (pts : List DataPoint) :
    (fitParameters (some pts)).isSome = true := by
  obtain ⟨m, hm⟩ : ∃ m, fitCandidates.argmin (candErr pts) = some m := by
    cases h : fitCandidates.argmin (candErr pts) with
    | none => exact absurd (List.argmin_eq_none.mp h) fitCandidates_ne_nil
    | some m => exact ⟨m, rfl⟩
  rw [fitParameters_some_eq, fitCore_eq_argmin, hm]
  rfl

set_option maxRecDepth 2000 in
/-- C3: `fit` on a non-empty dataset performs a brute-force grid search over
integer Km in [1, 500] and Vmax in 1, 6, …, 996 (step 5, bounded by 1000),
and returns the candidate that minimizes the sum of squared errors between
`mmRate(S, vmaxTest, kmTest)` and each observed `v`, with ties resolved by the
first-found candidate in iteration order (ascending Km, then ascending Vmax),
together with that total squared error and RMSE = √(err / N). -/
theorem fit_grid_search_argmin (pts : List DataPoint) (_hne : pts ≠ []) :
    ∃ r : FitResult,
      fitParameters (some pts) = some r ∧
      (r.Km, r.Vmax) ∈ fitCandidates ∧
      r.err = candErr pts (r.Km, r.Vmax) ∧
      (∀ d ∈ fitCandidates, r.err ≤ candErr pts d) ∧
      (∃ pre post, fitCandidates = pre ++ (r.Km, r.Vmax) :: post ∧
        ∀ d ∈ pre, r.err < candErr pts d) ∧
      (1 ≤ r.Km ∧ r.Km ≤ 500) ∧ (∃ j < 200, r.Vmax = 1 + 5 * j) ∧
      r.rmseSq = r.err / (pts.length : ℚ) ∧
      r.rmse = Real.sqrt ((r.err : ℝ) / (pts.length : ℝ)) := by
  obtain ⟨m, hm⟩ : ∃ m, fitCandidates.argmin (candErr pts) = some m := by
    cases h : fitCandidates.argmin (candErr pts) with
    | none => exact absurd (List.argmin_eq_none.mp h) fitCandidates_ne_nil
    | some m => exact ⟨m, rfl⟩
  obtain ⟨km, vm⟩ := m
  have hmem : (km, vm) ∈ fitCandidates := List.argmin_mem (Option.mem_def.mpr hm)
  refine ⟨⟨vm, km, candErr pts (km, vm), candErr pts (km, vm) / (pts.length : ℚ)⟩,
    ?_, hmem, rfl, ?_, ?_, ((mem_fitCandidates_iff (km, vm)).mp hmem).1,
    ((mem_fitCandidates_iff (km, vm)).mp hmem).2, rfl, ?_⟩
  · rw [fitParameters_some_eq, fitCore_eq_argmin, hm]
    rfl
  · intro d hd
    exact List.le_of_mem_argmin hd (Option.mem_def.mpr hm)
  · exact argmin_split hm
  · simp only [FitResult.rmse]
    refine congrArg Real.sqrt ?_
    push_cast
    ring

/-- Witness for C3: the one-point dataset [(S, v) = (1, 1)] is non-empty and
the fit produces a result lying on the candidate grid. -/
theorem fit_grid_search_argmin_witness :
    ([({ S := 1, v := 1 } : DataPoint)] ≠ ([] : List DataPoint)) ∧
      ∃ r : FitResult,
        fitParameters (some [{ S := 1, v := 1 }]) = some r ∧
        (r.Km, r.Vmax) ∈ fitCandidates :=
  ⟨by simp, by
    obtain ⟨r, h1, h2, -⟩ := fit_grid_search_argmin [{ S := 1, v := 1 }] (by simp)
    exact ⟨r, h1, h2⟩⟩

/-- C4 counterexample: with Smax = 25, step = 10 (Km = 50, kcat = 100, E = 1,
noise disabled), the generated dataset has no sample at or beyond Smax — the
loop condition `S <= Smax + 1e-9` stops short — and the stored velocity at
S = 10 is the rate rounded to 4 decimals, not exactly `mmRate`. -/
theorem generateData_stops_short_of_Smax :
    (∀ p ∈ generateData 1 100 50 25 10 false (fun _ => 0), p.S < 25) ∧
      ∃ p ∈ generateData 1 100 50 25 10 false (fun _ => 0),
        p.v ≠ mmRate p.S (100 * 1) 50 := by
  have hiter : iterCount 25 10 0 = 3 := by
    unfold iterCount
    norm_num [eps]
    rfl
  rw [generateData_closed 1 100 50 25 10 false (fun _ => 0) (by norm_num), hiter]
  constructor
  · intro p hp
    simp only [List.mem_map, List.mem_range] at hp
    obtain ⟨j, hj, rfl⟩ := hp
    interval_cases j <;>
      norm_num [jsToFixed, sampleV, mmRate, round_eq, eps]
  · refine ⟨_, List.mem_map.mpr ⟨1, List.mem_range.mpr (by norm_num), rfl⟩, ?_⟩
    norm_num [jsToFixed, sampleV, mmRate, round_eq]

/-- C4 amended: for `Smax > 0` and `step > 0` with noise disabled,
`generateData` emits exactly the samples `S = j·step` for
`j < N = ⌊(Smax + 1e-9)/step⌋ + 1` (stored with S rounded to 3 and v to 4
decimals, v being `mmRate` of the unrounded S); a multiple `j·step` is sampled
iff `j·step ≤ Smax + 1e-9`, so the last sample is the largest such multiple —
no point at or beyond Smax is generated when Smax is not a multiple of step. -/
theorem generateData_grid_characterization (E kcat Km Smax step : ℚ)
    (rand : ℕ → ℚ) (hS : 0 < Smax) (hstep : 0 < step) :
    generateData E kcat Km Smax step false rand =
      (List.range (iterCount Smax step 0)).map (fun j =>
        { S := jsToFixed 3 (j * step),
          v := jsToFixed 4 (mmRate (j * step) (kcat * E) Km) }) ∧
    0 < iterCount Smax step 0 ∧
    (∀ j : ℕ, j < iterCount Smax step 0 ↔ (j : ℚ) * step ≤ Smax + eps) := by
  have hfloor0 : 0 ≤ ⌊(Smax + eps - 0) / step⌋ := by
    apply Int.floor_nonneg.mpr
    apply div_nonneg _ hstep.le
    have : (0 : ℚ) < eps := by norm_num [eps]
    linarith
  refine ⟨?_, ?_, ?_⟩
  · rw [generateData_closed E kcat Km Smax step false rand hstep]
    apply List.map_congr_left
    intro j _
    simp [sampleV]
  · unfold iterCount
    omega
  · intro j
    unfold iterCount
    rw [sub_zero] at hfloor0 ⊢
    constructor
    · intro hj
      have hle : (j : ℤ) ≤ ⌊(Smax + eps) / step⌋ := by omega
      have h1 : ((j : ℤ) : ℚ) ≤ (Smax + eps) / step := Int.le_floor.mp hle
      have h2 : (j : ℚ) ≤ (Smax + eps) / step := by exact_mod_cast h1
      exact (le_div_iff₀ hstep).mp h2
    · intro hj
      have h1 : (j : ℚ) ≤ (Smax + eps) / step := (le_div_iff₀ hstep).mpr hj
      have h2 : (j : ℤ) ≤ ⌊(Smax + eps) / step⌋ := Int.le_floor.mpr (by exact_mod_cast h1)
      omega

/-- Witness for C4's amended theorem at E = 1, kcat = 100, Km = 50, Smax = 25,
step = 10, noise disabled. -/
theorem generateData_grid_characterization_witness :
    (0 : ℚ) < 25 ∧ (0 : ℚ) < 10 ∧
      generateData 1 100 50 25 10 false (fun _ => 0) =
        (List.range (iterCount 25 10 0)).map (fun j =>
          { S := jsToFixed 3 (j * 10), v := jsToFixed 4 (mmRate (j * 10) (100 * 1) 50) }) :=
  ⟨by norm_num, by norm_num,
    (generateData_grid_characterization 1 100 50 25 10 (fun _ => 0)
      (by norm_num) (by norm_num)).1⟩

/-- C5 counterexample: `fitParameters` on a present-but-empty dataset is not a
no-op: the JS guard `if (!data || !data.data) return` does not reject an empty
array (which is truthy), so the grid search runs and a fit result is stored. -/
theorem fitParameters_empty_produces_result :
    (fitParameters (some ([] : List DataPoint))).isSome = true :=
  fitParameters_some_isSome []

/-- C5 amended: `fit` on an absent dataset (JS `null`) is a no-op returning no
result, but on a present-but-empty dataset the search still runs and produces
a fit result. -/
theorem fitParameters_absent_noop :
    fitParameters none = none ∧
      (fitParameters (some ([] : List DataPoint))).isSome = true :=
  ⟨rfl, fitParameters_some_isSome []⟩

end Kinetics

namespace Viewer3D

lemma dna_aPos_mem (i : ℕ) (hi : i < 5) :
    DNA.aPos.getD i ⟨0, 0, 0⟩ ∈ atomPositions DNA.makeDNA := by
  simp only [atomPositions, DNA.makeDNA, DNA.aAtoms, DNA.tAtoms, List.map_append,
    List.map_map, List.mem_append, List.mem_map, List.mem_range]
  exact Or.inl ⟨i, hi, rfl⟩

lemma dna_tPos_mem (i : ℕ) (hi : i < 5) :
    DNA.tPos.getD i ⟨0, 0, 0⟩ ∈ atomPositions DNA.makeDNA := by
  simp only [atomPositions, DNA.makeDNA, DNA.aAtoms, DNA.tAtoms, List.map_append,
    List.map_map, List.mem_append, List.mem_map, List.mem_range]
  exact Or.inr ⟨i, hi, rfl⟩

lemma dna_anchored_except :
    ∀ b ∈ DNA.makeDNA.bonds, b ∈ DNA.connectors ∨ anchored DNA.makeDNA b := by
  intro b hb
  simp only [DNA.makeDNA, List.mem_append, List.mem_map, List.mem_range] at hb
  rcases hb with (⟨i, hi, rfl⟩ | ⟨i, hi, rfl⟩) | hc
  · exact Or.inr ⟨dna_aPos_mem i hi, dna_aPos_mem ((i + 1) % 5) (Nat.mod_lt _ (by norm_num))⟩
  · exact Or.inr ⟨dna_tPos_mem i hi, dna_tPos_mem ((i + 1) % 5) (Nat.mod_lt _ (by norm_num))⟩
  · exact Or.inl hc

end Viewer3D

namespace Viewer3D

/-- C1 counterexample: calling `loadMolecule` with an unknown id while glucose
is displayed is *not* a no-op — the glucose group is removed from the scene and
its geometry disposed before the registry lookup fails. -/
theorem loadMolecule_unknown_not_noop :
    (loadMolecule demoLoadedState "nope").sceneMol = none ∧
    (loadMolecule demoLoadedState "nope").disposed = [MolId.glucose] ∧
    loadMolecule demoLoadedState "nope" ≠ demoLoadedState := by
  refine ⟨rfl, rfl, fun h => ?_⟩
  have h2 := congrArg ViewerState.sceneMol h
  rw [show (loadMolecule demoLoadedState "nope").sceneMol = none from rfl] at h2
  exact Option.noConfusion h2

/-- C1 amended: for an id absent from the registry, `loadMolecule` leaves the
current molecule id, its descriptive metadata, the zoom and the (now stale)
`molRef` unchanged and instantiates nothing new; but when a molecule was
referenced it is removed from the scene and its geometry disposed — the
removal happens before the registry check, so the previous display does not
survive. -/
theorem loadMolecule_unknown_keeps_metadata (st : ViewerState) (name : String)
    (h : builderLookup name = none) :
    (loadMolecule st name).currentMol = st.currentMol ∧
    (loadMolecule st name).info = st.info ∧
    (loadMolecule st name).zoom = st.zoom ∧
    (loadMolecule st name).molRef = st.molRef ∧
    (st.molRef = none → loadMolecule st name = st) ∧
    (∀ m, st.molRef = some m →
      (loadMolecule st name).sceneMol = none ∧
      (loadMolecule st name).disposed = st.disposed ++ [m]) := by
  cases hm : st.molRef with
  | none => simp [loadMolecule, h, hm]
  | some m => simp [loadMolecule, h, hm]

/-- Witness for C1's amended theorem: the unknown id `"nope"` over the loaded
glucose session. -/
theorem loadMolecule_unknown_keeps_metadata_witness :
    builderLookup "nope" = none ∧
    (loadMolecule demoLoadedState "nope").currentMol =
      demoLoadedState.currentMol :=
  ⟨rfl, (loadMolecule_unknown_keeps_metadata demoLoadedState "nope" rfl).1⟩

lemma scrollZoom_mem (z d : ℝ) : 5 ≤ scrollZoom z d ∧ scrollZoom z d ≤ 30 := by
  unfold scrollZoom
  constructor
  · exact le_max_left _ _
  · exact max_le (by norm_num) (min_le_left _ _)

lemma foldl_scrollZoom_mem (z : ℝ) (h5 : 5 ≤ z) (h30 : z ≤ 30) :
    ∀ ds : List ℝ, 5 ≤ ds.foldl scrollZoom z ∧ ds.foldl scrollZoom z ≤ 30
  | [] => ⟨h5, h30⟩
  | d :: rest => by
    rw [List.foldl_cons]
    exact foldl_scrollZoom_mem (scrollZoom z d) (scrollZoom_mem z d).1
      (scrollZoom_mem z d).2 rest

/-- C9: the wheel handler adds `deltaY * 0.01` to the camera distance and
clamps to [5, 30]: any non-empty sequence of scroll events leaves the distance
in [5, 30]; a large positive deltaY (≥ 2500) from any distance ≥ 5 lands
exactly on 30 (and stays there under repetition); a large negative deltaY
(≤ −2500) from any distance ≤ 30 lands exactly on 5; and the handler touches
only the zoom — it runs regardless of whether a molecule is loaded. -/
theorem scrollZoom_clamps :
    (∀ (z : ℝ) (ds : List ℝ), ds ≠ [] →
      5 ≤ ds.foldl scrollZoom z ∧ ds.foldl scrollZoom z ≤ 30) ∧
    (∀ z d : ℝ, 5 ≤ z → 2500 ≤ d → scrollZoom z d = 30) ∧
    (∀ z d : ℝ, z ≤ 30 → -2500 ≥ d → scrollZoom z d = 5) ∧
    (∀ (st : ViewerState) (d : ℝ),
      (wheelStep st d).zoom = scrollZoom st.zoom d ∧
      (wheelStep st d).molRef = st.molRef ∧
      (wheelStep st d).sceneMol = st.sceneMol ∧
      (wheelStep st d).currentMol = st.currentMol ∧
      (wheelStep st d).info = st.info ∧
      (wheelStep st d).disposed = st.disposed) := by
  refine ⟨?_, ?_, ?_, ?_⟩
  · rintro z (_ | ⟨d, rest⟩) hne
    · exact absurd rfl hne
    · rw [List.foldl_cons]
      exact foldl_scrollZoom_mem (scrollZoom z d) (scrollZoom_mem z d).1
        (scrollZoom_mem z d).2 rest
  · intro z d hz hd
    unfold scrollZoom
    rw [min_eq_left (by linarith), max_eq_right (by norm_num)]
  · intro z d hz hd
    unfold scrollZoom
    rw [min_eq_right (by linarith), max_eq_left (by linarith)]
  · intro st d
    exact ⟨rfl, rfl, rfl, rfl, rfl, rfl⟩

/-- Witness for C9 at concrete inputs: one scroll keeps the distance in range,
a `deltaY = 3000` from the initial distance 15 pins the zoom to exactly 30,
and a `deltaY = −3000` from 15 pins it to exactly 5. -/
theorem scrollZoom_clamps_witness :
    ([(100 : ℝ)] ≠ []) ∧ (5 ≤ [(100 : ℝ)].foldl scrollZoom 15 ∧
      [(100 : ℝ)].foldl scrollZoom 15 ≤ 30) ∧
    scrollZoom 15 3000 = 30 ∧ scrollZoom 15 (-3000) = 5 :=
  ⟨by simp, scrollZoom_clamps.1 15 [100] (by simp),
    scrollZoom_clamps.2.1 15 3000 (by norm_num) (by norm_num),
    scrollZoom_clamps.2.2.1 15 (-3000) (by norm_num) (by norm_num)⟩

end Viewer3D

namespace Viewer3D

lemma jsTrim_eq_empty_iff (s : String) :
    jsTrim s = "" ↔ ∀ c ∈ s.data, isJsWhitespace c = true := by
  constructor
  · intro h c hc
    have hl : ((s.data.dropWhile isJsWhitespace).reverse.dropWhile
        isJsWhitespace).reverse = ([] : List Char) := congrArg String.data h
    rw [List.reverse_eq_nil_iff, List.dropWhile_eq_nil_iff] at hl
    have hl2 : ∀ x ∈ s.data.dropWhile isJsWhitespace, isJsWhitespace x = true :=
      fun x hx => hl x (List.mem_reverse.mpr hx)
    have hsplit := List.takeWhile_append_dropWhile (p := isJsWhitespace) (l := s.data)
    rw [← hsplit] at hc
    rcases List.mem_append.mp hc with h1 | h2
    · exact List.mem_takeWhile_imp h1
    · exact hl2 c h2
  · intro h
    have h1 : s.data.dropWhile isJsWhitespace = [] :=
      List.dropWhile_eq_nil_iff.mpr h
    show String.mk _ = ""
    rw [h1]
    rfl

/-- C10: `saveView` rejects a name consisting only of whitespace exactly as it
rejects the empty name (`!viewName.trim()` is truthy for both): no record and
no durable write, the input unchanged; it likewise rejects when no molecule is
loaded; but a name containing a non-whitespace character, with a molecule
loaded, is appended as a record keeping the name *verbatim* — surrounding
whitespace untrimmed — and the whole collection is persisted. -/
theorem saveView_trim_verbatim (vs : ViewStore) (viewName : String)
    (molRef : Option MolId) (currentMol : String) (rotation : Vec3) (zoom : ℝ)
    (now : ℕ) :
    ((∀ c ∈ viewName.data, isJsWhitespace c = true) →
      saveView vs viewName molRef currentMol rotation zoom now = (vs, viewName)) ∧
    (molRef = none →
      saveView vs viewName molRef currentMol rotation zoom now = (vs, viewName)) ∧
    ((∃ c ∈ viewName.data, ¬isJsWhitespace c = true) → ∀ m, molRef = some m →
      saveView vs viewName molRef currentMol rotation zoom now =
        ({ views := vs.views ++
            [{ id := now, name := viewName, molecule := currentMol,
               rotation := rotation, zoom := zoom, time := now }]
           durable := some (vs.views ++
            [{ id := now, name := viewName, molecule := currentMol,
               rotation := rotation, zoom := zoom, time := now }]) }, "")) := by
  refine ⟨fun hws => ?_, fun hnone => ?_, fun hnws m hm => ?_⟩
  · unfold saveView
    rw [if_pos (Or.inl ((jsTrim_eq_empty_iff viewName).mpr hws))]
  · unfold saveView
    rw [if_pos (Or.inr hnone)]
  · unfold saveView
    rw [if_neg]
    refine not_or.mpr ⟨fun he => ?_, fun hn => ?_⟩
    · obtain ⟨c, hc, hcw⟩ := hnws
      exact hcw ((jsTrim_eq_empty_iff viewName).mp he c hc)
    · rw [hm] at hn
      exact Option.noConfusion hn

/-- Witness for C10: a whitespace-only name `" \t "` is rejected with the store
untouched, while `" My View "` (with a molecule loaded) is stored verbatim with
its surrounding spaces. -/
theorem saveView_trim_verbatim_witness :
    (saveView ⟨[], none⟩ " \t " (some .glucose) "glucose" ⟨0, 0, 0⟩ 15 99 =
      (⟨[], none⟩, " \t ")) ∧
    (saveView ⟨[], none⟩ " My View " (some .glucose) "glucose" ⟨0, 0, 0⟩ 15 99 =
      ((⟨[⟨99, " My View ", "glucose", ⟨0, 0, 0⟩, 15, 99⟩],
         some [⟨99, " My View ", "glucose", ⟨0, 0, 0⟩, 15, 99⟩]⟩ : ViewStore),
       "")) := by
  constructor
  · exact (saveView_trim_verbatim ⟨[], none⟩ " \t " (some .glucose) "glucose"
      ⟨0, 0, 0⟩ 15 99).1 (by decide)
  · have h := (saveView_trim_verbatim ⟨[], none⟩ " My View " (some .glucose)
      "glucose" ⟨0, 0, 0⟩ 15 99).2.2 ⟨'M', by decide, by decide⟩
      MolId.glucose rfl
    simpa using h

/-- C6 counterexample: a corrupt/unparseable durable saved-views entry is not
treated as an empty collection — `JSON.parse` throws (there is no try/catch),
modelled as `none`. -/
theorem loadSavedViews_corrupt_throws :
    loadSavedViews (some "###") = none ∧
    loadSavedViews (some "###") ≠ some (JsonModel.Json.arr []) := by
  refine ⟨rfl, fun h => ?_⟩
  rw [show loadSavedViews (some "###") = none from rfl] at h
  exact Option.noConfusion h

/-- C6 amended: an absent durable entry (and the falsy empty string) yields the
empty collection, so the application starts usable with no saved views; but
when the entry holds unparseable content, `JSON.parse` throws and the error
propagates out of the load effect — it is not treated as an empty
collection. -/
theorem loadSavedViews_absent_empty :
    loadSavedViews none = some (JsonModel.Json.arr []) ∧
    loadSavedViews (some "") = some (JsonModel.Json.arr []) ∧
    ∀ s : String, s ≠ "" → JsonModel.jsonParse s = none →
      loadSavedViews (some s) = none := by
  refine ⟨rfl, rfl, fun s hne hp => ?_⟩
  simp only [loadSavedViews]
  rw [if_neg hne]
  exact hp

/-- Witness for C6's amended theorem at the corrupt entry `"###"`. -/
theorem loadSavedViews_absent_empty_witness :
    ("###" ≠ "") ∧ JsonModel.jsonParse "###" = none ∧
      loadSavedViews (some "###") = none :=
  ⟨by decide, rfl, loadSavedViews_absent_empty.2.2 "###" (by decide) rfl⟩

end Viewer3D

namespace Viewer3D

lemma helix_residue_filter (i : ℕ) :
    (AlphaHelix.residueBonds i).filter
      (fun b => b.color = AlphaHelix.hColor) = [] := by
  rcases Nat.eq_zero_or_pos i with rfl | hi
  · norm_num [AlphaHelix.residueBonds, mkBond, bondDefaultColor,
      AlphaHelix.hColor, List.filter]
  · norm_num [AlphaHelix.residueBonds, mkBond, bondDefaultColor,
      AlphaHelix.hColor, List.filter, hi]

lemma helix_backbone_filter (K : ℕ) :
    ((List.range K).flatMap AlphaHelix.residueBonds).filter
      (fun b => b.color = AlphaHelix.hColor) = [] := by
  induction K with
  | zero => rfl
  | succ n ih =>
    rw [List.range_succ, List.flatMap_append, List.filter_append, ih,
      List.nil_append]
    simp [List.flatMap_cons, List.flatMap_nil, helix_residue_filter n]

lemma helix_hBonds_filter (K : ℕ) :
    (AlphaHelix.hBonds K).filter (fun b => b.color = AlphaHelix.hColor) =
      AlphaHelix.hBonds K := by
  rw [List.filter_eq_self]
  intro b hb
  simp only [AlphaHelix.hBonds, List.mem_map] at hb
  obtain ⟨j, _, rfl⟩ := hb
  simp [mkBond]

/-- C7: in the alpha-helix builder with residue count K ≥ 5, the inferred
hydrogen bonds — exactly the bonds drawn in the distinct colour `0x00dd88`,
different from the default bond colour — are exactly K − 4 in number, the
j-th (j = 0, …, K−5) connecting residue (4+j)'s amide-N position to residue
j's carbonyl-O position, i.e. one bond N(i) → O(i−4) for each residue
4 ≤ i < K. -/
theorem alphaHelix_hbond_pattern (K : ℕ) (_hK : 5 ≤ K) :
    ((AlphaHelix.makeAlphaHelixN K).bonds.filter
        (fun b => b.color = AlphaHelix.hColor)).length = K - 4 ∧
    (AlphaHelix.makeAlphaHelixN K).bonds.filter
        (fun b => b.color = AlphaHelix.hColor) =
      (List.range (K - 4)).map (fun j =>
        mkBond (AlphaHelix.nPos (4 + j)) (AlphaHelix.oPos j) AlphaHelix.hColor) ∧
    AlphaHelix.hColor ≠ bondDefaultColor := by
  have h1 : (AlphaHelix.makeAlphaHelixN K).bonds.filter
      (fun b => b.color = AlphaHelix.hColor) = AlphaHelix.hBonds K := by
    simp only [AlphaHelix.makeAlphaHelixN, List.filter_append,
      helix_backbone_filter, List.nil_append, helix_hBonds_filter]
  refine ⟨?_, ?_, by decide⟩
  · rw [h1]
    simp [AlphaHelix.hBonds]
  · rw [h1]
    rfl

/-- Witness for C7: the source's `makeAlphaHelix` (residues = 12) draws exactly
12 − 4 = 8 distinctly-coloured hydrogen bonds. -/
theorem alphaHelix_hbond_pattern_witness :
    5 ≤ 12 ∧
    ((AlphaHelix.makeAlphaHelix.bonds.filter
        (fun b => b.color = AlphaHelix.hColor)).length = 12 - 4) :=
  ⟨by norm_num, (alphaHelix_hbond_pattern 12 (by norm_num)).1⟩

end Viewer3D

namespace Viewer3D

lemma alanine_anchored : ∀ b ∈ Alanine.makeAlanine.bonds,
    anchored Alanine.makeAlanine b := by
  intro b hb
  fin_cases hb <;>
    exact ⟨by simp [atomPositions, Alanine.makeAlanine, mkBond],
      by simp [atomPositions, Alanine.makeAlanine, mkBond]⟩

lemma atp_anchored : ∀ b ∈ ATP.makeATP.bonds, anchored ATP.makeATP b := by
  intro b hb
  fin_cases hb <;>
    exact ⟨by simp [atomPositions, ATP.makeATP, mkBond],
      by simp [atomPositions, ATP.makeATP, mkBond]⟩

end Viewer3D

namespace Viewer3D

lemma acetylcoa_anchored : ∀ b ∈ AcetylCoA.makeAcetylCoA.bonds,
    anchored AcetylCoA.makeAcetylCoA b := by
  intro b hb
  fin_cases hb <;>
    exact ⟨by simp [atomPositions, AcetylCoA.makeAcetylCoA, mkBond],
      by simp [atomPositions, AcetylCoA.makeAcetylCoA, mkBond]⟩

lemma tryptophan_anchored : ∀ b ∈ Tryptophan.makeTryptophan.bonds,
    anchored Tryptophan.makeTryptophan b := by
  intro b hb
  fin_cases hb <;>
    exact ⟨by simp [atomPositions, Tryptophan.makeTryptophan, mkBond],
      by simp [atomPositions, Tryptophan.makeTryptophan, mkBond]⟩

end Viewer3D

namespace Viewer3D

lemma glucose_ringAtom_pos (i : ℕ) :
    (Glucose.ringAtom i).pos = Glucose.ringPos i := by
  unfold Glucose.ringAtom
  split <;> rfl

lemma glucose_ringPos_mem (i : ℕ) (hi : i < 6) :
    Glucose.ringPos i ∈ atomPositions Glucose.makeGlucose := by
  simp only [atomPositions, Glucose.makeGlucose, List.map_append,
    List.mem_append, List.map_map, List.mem_map, List.mem_range]
  exact Or.inl (Or.inl ⟨i, hi, glucose_ringAtom_pos i⟩)

lemma glucose_oPos_mem (i : ℕ) (hi : i = 1 ∨ i = 2 ∨ i = 3 ∨ i = 4) :
    Glucose.oPos i ∈ atomPositions Glucose.makeGlucose := by
  simp only [atomPositions, Glucose.makeGlucose, List.map_append,
    List.mem_append, List.mem_map, List.mem_flatMap]
  exact Or.inl (Or.inr ⟨⟨Glucose.oPos i, 0xff0000, 0.6⟩,
    ⟨i, by rcases hi with rfl | rfl | rfl | rfl <;> simp, by simp⟩, rfl⟩)

lemma glucose_hPos_mem (i : ℕ) (hi : i = 1 ∨ i = 2 ∨ i = 3 ∨ i = 4) :
    Glucose.hPos i ∈ atomPositions Glucose.makeGlucose := by
  simp only [atomPositions, Glucose.makeGlucose, List.map_append,
    List.mem_append, List.mem_map, List.mem_flatMap]
  exact Or.inl (Or.inr ⟨⟨Glucose.hPos i, 0xffffff, 0.35⟩,
    ⟨i, by rcases hi with rfl | rfl | rfl | rfl <;> simp, by simp⟩, rfl⟩)

lemma glucose_c5_mem : Glucose.c5Pos ∈ atomPositions Glucose.makeGlucose := by
  simp [atomPositions, Glucose.makeGlucose]

lemma glucose_o5_mem : Glucose.o5Pos ∈ atomPositions Glucose.makeGlucose := by
  simp [atomPositions, Glucose.makeGlucose]

lemma glucose_h5_mem : Glucose.h5Pos ∈ atomPositions Glucose.makeGlucose := by
  simp [atomPositions, Glucose.makeGlucose]

lemma glucose_anchored : ∀ b ∈ Glucose.makeGlucose.bonds,
    anchored Glucose.makeGlucose b := by
  intro b hb
  simp only [Glucose.makeGlucose, List.mem_append, List.mem_map, List.mem_range,
    List.mem_flatMap, List.mem_cons, List.not_mem_nil, or_false] at hb
  rcases hb with (⟨i, hi, rfl⟩ | ⟨i, hi, rfl | rfl⟩) | (rfl | rfl | rfl)
  · exact ⟨glucose_ringPos_mem i hi,
      glucose_ringPos_mem _ (Nat.mod_lt _ (by norm_num))⟩
  · refine ⟨glucose_ringPos_mem i ?_, glucose_oPos_mem i hi⟩
    rcases hi with rfl | rfl | rfl | rfl <;> norm_num
  · exact ⟨glucose_oPos_mem i hi, glucose_hPos_mem i hi⟩
  · exact ⟨glucose_ringPos_mem 5 (by norm_num), glucose_c5_mem⟩
  · exact ⟨glucose_c5_mem, glucose_o5_mem⟩
  · exact ⟨glucose_o5_mem, glucose_h5_mem⟩

lemma dnacg_cPos_mem (i : ℕ) (hi : i < 5) :
    DNACG.cPos.getD i ⟨0, 0, 0⟩ ∈ atomPositions DNACG.makeDNACG := by
  simp only [atomPositions, DNACG.makeDNACG, DNACG.cAtoms, DNACG.gAtoms,
    List.map_append, List.map_map, List.mem_append, List.mem_map, List.mem_range]
  exact Or.inl ⟨i, hi, rfl⟩

lemma dnacg_gPos_mem (i : ℕ) (hi : i < 5) :
    DNACG.gPos.getD i ⟨0, 0, 0⟩ ∈ atomPositions DNACG.makeDNACG := by
  simp only [atomPositions, DNACG.makeDNACG, DNACG.cAtoms, DNACG.gAtoms,
    List.map_append, List.map_map, List.mem_append, List.mem_map, List.mem_range]
  exact Or.inr ⟨i, hi, rfl⟩

lemma dnacg_anchored_except :
    ∀ b ∈ DNACG.makeDNACG.bonds, b ∈ DNACG.connectors ∨
      anchored DNACG.makeDNACG b := by
  intro b hb
  simp only [DNACG.makeDNACG, List.mem_append, List.mem_map, List.mem_range] at hb
  rcases hb with (⟨i, hi, rfl⟩ | ⟨i, hi, rfl⟩) | hc
  · exact Or.inr ⟨dnacg_cPos_mem i hi,
      dnacg_cPos_mem ((i + 1) % 5) (Nat.mod_lt _ (by norm_num))⟩
  · exact Or.inr ⟨dnacg_gPos_mem i hi,
      dnacg_gPos_mem ((i + 1) % 5) (Nat.mod_lt _ (by norm_num))⟩
  · exact Or.inl hc

lemma helix_nPos_mem {K i : ℕ} (hi : i < K) :
    AlphaHelix.nPos i ∈ atomPositions (AlphaHelix.makeAlphaHelixN K) := by
  simp only [atomPositions, AlphaHelix.makeAlphaHelixN]
  exact List.mem_map.mpr ⟨⟨AlphaHelix.nPos i, 0x3050f8, 0.32⟩,
    List.mem_flatMap.mpr ⟨i, List.mem_range.mpr hi,
      by simp [AlphaHelix.residueAtoms]⟩, rfl⟩

lemma helix_caPos_mem {K i : ℕ} (hi : i < K) :
    AlphaHelix.caPos i ∈ atomPositions (AlphaHelix.makeAlphaHelixN K) := by
  simp only [atomPositions, AlphaHelix.makeAlphaHelixN]
  exact List.mem_map.mpr ⟨⟨AlphaHelix.caPos i, 0xaaaaaa, 0.38⟩,
    List.mem_flatMap.mpr ⟨i, List.mem_range.mpr hi,
      by simp [AlphaHelix.residueAtoms]⟩, rfl⟩

lemma helix_cPos_mem {K i : ℕ} (hi : i < K) :
    AlphaHelix.cPos i ∈ atomPositions (AlphaHelix.makeAlphaHelixN K) := by
  simp only [atomPositions, AlphaHelix.makeAlphaHelixN]
  exact List.mem_map.mpr ⟨⟨AlphaHelix.cPos i, 0x404040, 0.30⟩,
    List.mem_flatMap.mpr ⟨i, List.mem_range.mpr hi,
      by simp [AlphaHelix.residueAtoms]⟩, rfl⟩

lemma helix_oPos_mem {K i : ℕ} (hi : i < K) :
    AlphaHelix.oPos i ∈ atomPositions (AlphaHelix.makeAlphaHelixN K) := by
  simp only [atomPositions, AlphaHelix.makeAlphaHelixN]
  exact List.mem_map.mpr ⟨⟨AlphaHelix.oPos i, 0xff3030, 0.28⟩,
    List.mem_flatMap.mpr ⟨i, List.mem_range.mpr hi,
      by simp [AlphaHelix.residueAtoms]⟩, rfl⟩

lemma helix_anchored (K : ℕ) : ∀ b ∈ (AlphaHelix.makeAlphaHelixN K).bonds,
    anchored (AlphaHelix.makeAlphaHelixN K) b := by
  intro b hb
  simp only [AlphaHelix.makeAlphaHelixN, List.mem_append, List.mem_flatMap,
    List.mem_range, AlphaHelix.hBonds, List.mem_map] at hb
  rcases hb with ⟨i, hi, hbi⟩ | ⟨j, hj, rfl⟩
  · simp only [AlphaHelix.residueBonds, List.mem_append, List.mem_cons,
      List.not_mem_nil, or_false] at hbi
    rcases hbi with (rfl | rfl | rfl) | hpep
    · exact ⟨helix_nPos_mem hi, helix_caPos_mem hi⟩
    · exact ⟨helix_caPos_mem hi, helix_cPos_mem hi⟩
    · exact ⟨helix_cPos_mem hi, helix_oPos_mem hi⟩
    · rcases Nat.eq_zero_or_pos i with rfl | hipos
      · simp at hpep
      · rw [if_pos hipos] at hpep
        simp only [List.mem_cons, List.not_mem_nil, or_false] at hpep
        subst hpep
        exact ⟨helix_cPos_mem (by omega), helix_nPos_mem hi⟩
  · exact ⟨helix_nPos_mem (by omega), helix_oPos_mem (by omega)⟩

end Viewer3D

namespace Viewer3D

lemma chol_hexA_mem (i : ℕ) (hi : i < 6) :
    Cholesterol.hexPos 0 0 i ∈ atomPositions Cholesterol.makeCholesterol := by
  simp only [atomPositions, Cholesterol.makeCholesterol,
    Cholesterol.hexRingAtoms, List.map_append, List.mem_append, List.map_map,
    List.mem_map, List.mem_range]
  exact Or.inl (Or.inl (Or.inl (Or.inl (Or.inl (Or.inl ⟨i, hi, rfl⟩)))))

lemma chol_hexB_mem (i : ℕ) (hi : i < 6) :
    Cholesterol.hexPos Cholesterol.hexStep 0 i ∈
      atomPositions Cholesterol.makeCholesterol := by
  simp only [atomPositions, Cholesterol.makeCholesterol,
    Cholesterol.hexRingAtoms, List.map_append, List.mem_append, List.map_map,
    List.mem_map, List.mem_range]
  exact Or.inl (Or.inl (Or.inl (Or.inl (Or.inl (Or.inr ⟨i, hi, rfl⟩)))))

lemma chol_hexC_mem (i : ℕ) (hi : i < 6) :
    Cholesterol.hexPos (2 * Cholesterol.hexStep) 0 i ∈
      atomPositions Cholesterol.makeCholesterol := by
  simp only [atomPositions, Cholesterol.makeCholesterol,
    Cholesterol.hexRingAtoms, List.map_append, List.mem_append, List.map_map,
    List.mem_map, List.mem_range]
  exact Or.inl (Or.inl (Or.inl (Or.inl (Or.inr ⟨i, hi, rfl⟩))))

lemma chol_tail_mem (k : ℕ) (hk : k < 8) :
    Cholesterol.tailPos (k + 1) ∈ atomPositions Cholesterol.makeCholesterol := by
  simp only [atomPositions, Cholesterol.makeCholesterol,
    List.map_append, List.mem_append, List.map_map, List.mem_map, List.mem_range]
  exact Or.inl (Or.inr ⟨k, hk, rfl⟩)

lemma chol_tailPos_mem (k : ℕ) (hk : k ≤ 8) :
    Cholesterol.tailPos k ∈ atomPositions Cholesterol.makeCholesterol := by
  rcases Nat.eq_zero_or_pos k with rfl | hpos
  · show Cholesterol.pentPos 2 ∈ _
    simp [atomPositions, Cholesterol.makeCholesterol]
  · obtain ⟨j, rfl⟩ : ∃ j, k = j + 1 := ⟨k - 1, by omega⟩
    exact chol_tail_mem j (by omega)

lemma chol_pentPos_mem (i : ℕ) (hi : i < 5) :
    Cholesterol.pentPos i ∈ atomPositions Cholesterol.makeCholesterol := by
  interval_cases i
  · exact chol_hexC_mem 5 (by norm_num)
  · exact chol_hexC_mem 0 (by norm_num)
  · simp [atomPositions, Cholesterol.makeCholesterol]
  · simp [atomPositions, Cholesterol.makeCholesterol]
  · simp [atomPositions, Cholesterol.makeCholesterol]

lemma chol_anchored_except :
    ∀ b ∈ Cholesterol.makeCholesterol.bonds,
      b = mkBond Cholesterol.branchBase Cholesterol.branchAtomPos ∨
        anchored Cholesterol.makeCholesterol b := by
  intro b hb
  simp only [Cholesterol.makeCholesterol, Cholesterol.hexRingBonds,
    List.mem_append, List.mem_map, List.mem_range, List.mem_cons,
    List.not_mem_nil, or_false, List.mem_singleton] at hb
  rcases hb with ((((((⟨i, hi, rfl⟩ | ⟨i, hi, rfl⟩) | ⟨i, hi, rfl⟩) |
    ⟨i, hi, rfl⟩) | (rfl | rfl | rfl | rfl)) | ⟨k, hk, rfl⟩) | rfl) | rfl
  · exact Or.inr ⟨chol_hexA_mem i hi,
      chol_hexA_mem _ (Nat.mod_lt _ (by norm_num))⟩
  · exact Or.inr ⟨chol_hexB_mem i hi,
      chol_hexB_mem _ (Nat.mod_lt _ (by norm_num))⟩
  · exact Or.inr ⟨chol_hexC_mem i hi,
      chol_hexC_mem _ (Nat.mod_lt _ (by norm_num))⟩
  · exact Or.inr ⟨chol_pentPos_mem i hi,
      chol_pentPos_mem _ (Nat.mod_lt _ (by norm_num))⟩
  · exact Or.inr ⟨chol_hexA_mem 1 (by norm_num),
      by simp [atomPositions, Cholesterol.makeCholesterol, mkBond]⟩
  · exact Or.inr ⟨by simp [atomPositions, Cholesterol.makeCholesterol, mkBond],
      by simp [atomPositions, Cholesterol.makeCholesterol, mkBond]⟩
  · exact Or.inr ⟨chol_hexA_mem 0 (by norm_num),
      by simp [atomPositions, Cholesterol.makeCholesterol, mkBond]⟩
  · exact Or.inr ⟨chol_hexB_mem 0 (by norm_num),
      by simp [atomPositions, Cholesterol.makeCholesterol, mkBond]⟩
  · exact Or.inr ⟨chol_tailPos_mem k (by omega), chol_tail_mem k hk⟩
  · exact Or.inl rfl
  · exact Or.inr ⟨chol_hexA_mem 3 (by norm_num),
      by simp [atomPositions, Cholesterol.makeCholesterol, mkBond]⟩

end Viewer3D

namespace Viewer3D

lemma counts_glucose :
    0 < Glucose.makeGlucose.atoms.length ∧
      0 < Glucose.makeGlucose.bonds.length := by
  constructor <;> simp [Glucose.makeGlucose]

lemma counts_alanine :
    0 < Alanine.makeAlanine.atoms.length ∧
      0 < Alanine.makeAlanine.bonds.length := by
  constructor <;> simp [Alanine.makeAlanine]

lemma counts_atp :
    0 < ATP.makeATP.atoms.length ∧ 0 < ATP.makeATP.bonds.length := by
  constructor <;> simp [ATP.makeATP]

lemma counts_dna :
    0 < DNA.makeDNA.atoms.length ∧ 0 < DNA.makeDNA.bonds.length := by
  constructor <;> simp [DNA.makeDNA, DNA.aAtoms, DNA.tAtoms, DNA.connectors]

lemma counts_dnacg :
    0 < DNACG.makeDNACG.atoms.length ∧ 0 < DNACG.makeDNACG.bonds.length := by
  constructor <;>
    simp [DNACG.makeDNACG, DNACG.cAtoms, DNACG.gAtoms, DNACG.connectors]

lemma counts_acetylcoa :
    0 < AcetylCoA.makeAcetylCoA.atoms.length ∧
      0 < AcetylCoA.makeAcetylCoA.bonds.length := by
  constructor <;> simp [AcetylCoA.makeAcetylCoA]

lemma counts_tryptophan :
    0 < Tryptophan.makeTryptophan.atoms.length ∧
      0 < Tryptophan.makeTryptophan.bonds.length := by
  constructor <;> simp [Tryptophan.makeTryptophan]

lemma counts_cholesterol :
    0 < Cholesterol.makeCholesterol.atoms.length ∧
      0 < Cholesterol.makeCholesterol.bonds.length := by
  constructor <;>
    simp [Cholesterol.makeCholesterol, Cholesterol.hexRingAtoms,
      Cholesterol.hexRingBonds]

lemma counts_alphahelix :
    0 < AlphaHelix.makeAlphaHelix.atoms.length ∧
      0 < AlphaHelix.makeAlphaHelix.bonds.length := by
  constructor
  · have h := helix_caPos_mem (K := 12) (i := 0) (by norm_num)
    obtain ⟨a, ha, -⟩ := List.mem_map.mp h
    exact List.length_pos.mpr (List.ne_nil_of_mem ha)
  · show 0 < (AlphaHelix.makeAlphaHelixN 12).bonds.length
    simp only [AlphaHelix.makeAlphaHelixN, List.length_append]
    have : (AlphaHelix.hBonds 12).length = 8 := by simp [AlphaHelix.hBonds]
    omega

/-- C2 counterexample: in `makeDNA`, the first inter-base hydrogen-bond
connector runs from the free point (−2.5, 1, 0) to (2.5, 1, 0), and
(−2.5, 1, 0) is the position of no atom of the group — a dangling bond. -/
theorem dna_connector_dangling :
    ∃ b ∈ (build MolId.dna).bonds, ¬anchored (build MolId.dna) b := by
  refine ⟨mkBond ⟨-2.5, 1, 0⟩ ⟨2.5, 1, 0⟩ 0x88ff88, ?_, ?_⟩
  · simp [build, DNA.makeDNA, DNA.connectors]
  · intro hanch
    obtain ⟨hsrc, -⟩ := hanch
    simp only [build, atomPositions, DNA.makeDNA, DNA.aAtoms, DNA.tAtoms,
      mkBond, List.map_append, List.map_map, List.mem_append, List.mem_map,
      List.mem_range] at hsrc
    rcases hsrc with ⟨i, hi, heq⟩ | ⟨i, hi, heq⟩ <;> interval_cases i <;>
      simp only [DNA.aPos, DNA.tPos, List.getD_cons_zero, List.getD_cons_succ,
        Function.comp_apply] at heq <;>
      rw [Vec3.mk.injEq] at heq <;> norm_num at heq

/-- C2 amended: every supported molecule id builds a group with positive atom
and bond counts, and every bond's two endpoints equal the position of some
atom of the same group, *except* the deliberately free-floating inter-base
hydrogen-bond connectors of the two DNA base-pair builders (2 for A–T, 3 for
C–G) and cholesterol's isopropyl branch bond, whose start is a computed
offset point. -/
theorem builders_wellformed (id : MolId) :
    0 < (build id).atoms.length ∧ 0 < (build id).bonds.length ∧
    ∀ b ∈ (build id).bonds,
      b ∈ connectorExceptions id ∨ anchored (build id) b := by
  cases id with
  | glucose => exact ⟨counts_glucose.1, counts_glucose.2,
      fun b hb => Or.inr (glucose_anchored b hb)⟩
  | alanine => exact ⟨counts_alanine.1, counts_alanine.2,
      fun b hb => Or.inr (alanine_anchored b hb)⟩
  | atp => exact ⟨counts_atp.1, counts_atp.2,
      fun b hb => Or.inr (atp_anchored b hb)⟩
  | dna => exact ⟨counts_dna.1, counts_dna.2, dna_anchored_except⟩
  | dnacg => exact ⟨counts_dnacg.1, counts_dnacg.2, dnacg_anchored_except⟩
  | acetylcoa => exact ⟨counts_acetylcoa.1, counts_acetylcoa.2,
      fun b hb => Or.inr (acetylcoa_anchored b hb)⟩
  | tryptophan => exact ⟨counts_tryptophan.1, counts_tryptophan.2,
      fun b hb => Or.inr (tryptophan_anchored b hb)⟩
  | cholesterol => exact ⟨counts_cholesterol.1, counts_cholesterol.2,
      fun b hb => (chol_anchored_except b hb).imp
        (fun h => by simp [connectorExceptions, h]) id⟩
  | alphahelix => exact ⟨counts_alphahelix.1, counts_alphahelix.2,
      fun b hb => Or.inr (helix_anchored 12 b hb)⟩

end Viewer3D

namespace Viewer3D

lemma chol_hexAngle_zero : Cholesterol.hexAngle 0 = Real.pi / 6 := by
  unfold Cholesterol.hexAngle
  push_cast
  ring

lemma chol_hexAngle_two : Cholesterol.hexAngle 2 = Real.pi - Real.pi / 6 := by
  unfold Cholesterol.hexAngle
  push_cast
  ring

lemma chol_hexAngle_three : Cholesterol.hexAngle 3 = Real.pi - -(Real.pi / 6) := by
  unfold Cholesterol.hexAngle
  push_cast
  ring

lemma chol_hexAngle_five : Cholesterol.hexAngle 5 = 2 * Real.pi - Real.pi / 6 := by
  unfold Cholesterol.hexAngle
  push_cast
  ring

/-- Ring B's slot-2 vertex sits at exactly ring A's slot-0 vertex: the fused
hexagons share edge *positions*. -/
lemma chol_B2_eq_A0 : Cholesterol.ringBpos 2 = Cholesterol.ringApos 0 := by
  unfold Cholesterol.ringBpos Cholesterol.ringApos Cholesterol.hexPos
  simp only [Vec3.mk.injEq]
  refine ⟨?_, ?_, ?_⟩
  · rw [chol_hexAngle_two, Real.cos_pi_sub, chol_hexAngle_zero,
      Real.cos_pi_div_six]
    unfold Cholesterol.hexStep
    ring
  · rw [chol_hexAngle_two, Real.sin_pi_sub, chol_hexAngle_zero]
  · norm_num [Cholesterol.hexPucker]

/-- Ring B's slot-3 vertex sits at exactly ring A's slot-5 vertex. -/
lemma chol_B3_eq_A5 : Cholesterol.ringBpos 3 = Cholesterol.ringApos 5 := by
  unfold Cholesterol.ringBpos Cholesterol.ringApos Cholesterol.hexPos
  simp only [Vec3.mk.injEq]
  refine ⟨?_, ?_, ?_⟩
  · rw [chol_hexAngle_three, Real.cos_pi_sub, Real.cos_neg,
      chol_hexAngle_five, Real.cos_two_pi_sub, Real.cos_pi_div_six]
    unfold Cholesterol.hexStep
    ring
  · rw [chol_hexAngle_three, Real.sin_pi_sub, Real.sin_neg,
      chol_hexAngle_five, Real.sin_two_pi_sub]
  · norm_num [Cholesterol.hexPucker]

/-- C8 counterexample: rings A and B of `makeCholesterol` are consecutively
fused hexagons that geometrically share an edge — slots B[2]/B[3] coincide
exactly with A[0]/A[5] — yet ring B is built from six *freshly created* atoms
(group indices 6–11, disjoint from A's 0–5): the shared edge's atoms are
independently-generated coincident atoms, not reused objects. -/
theorem cholesterol_hex_fusion_not_shared :
    Cholesterol.ringBIdx.getD 2 0 = 8 ∧ Cholesterol.ringAIdx.getD 0 9 = 0 ∧
    (∀ i ∈ Cholesterol.ringBIdx, i ∉ Cholesterol.ringAIdx) ∧
    Cholesterol.ringBpos 2 = Cholesterol.ringApos 0 ∧
    Cholesterol.ringBpos 3 = Cholesterol.ringApos 5 ∧
    (Cholesterol.makeCholesterol.atoms.getD 8 ⟨⟨0, 0, 0⟩, 0, 0⟩).pos =
      Cholesterol.ringBpos 2 ∧
    (Cholesterol.makeCholesterol.atoms.getD 0 ⟨⟨0, 0, 0⟩, 0, 0⟩).pos =
      Cholesterol.ringApos 0 := by
  refine ⟨by decide, by decide, by decide, chol_B2_eq_A0, chol_B3_eq_A5, ?_, ?_⟩
  · have hr : List.range 6 = [0, 1, 2, 3, 4, 5] := by decide
    simp [Cholesterol.makeCholesterol, Cholesterol.hexRingAtoms, hr,
      List.getD_cons_zero, List.getD_cons_succ, Cholesterol.ringBpos]
  · have hr : List.range 6 = [0, 1, 2, 3, 4, 5] := by decide
    simp [Cholesterol.makeCholesterol, Cholesterol.hexRingAtoms, hr,
      List.getD_cons_zero, List.getD_cons_succ, Cholesterol.ringApos]

/-- C8 amended: anchor-object reuse holds for the fusions the builders
implement by construction — `makePentRing` takes ring C's atoms 5 and 0
(group indices 17 and 12) as its first two pentagon slots and creates only
three new atoms (18–20), and `makeATP`'s imidazole cycle is anchored on the
*existing* pyrimidine atoms C4 (index 0) and C5 (index 5), bonding N7/N9
directly to them — while the hexagon-hexagon fusions of `makeCholesterol`
create fresh coincident atoms instead (see the counterexample). -/
theorem fused_ring_anchor_reuse :
    Cholesterol.ringDIdx.getD 0 99 = Cholesterol.ringCIdx.getD 5 88 ∧
    Cholesterol.ringDIdx.getD 1 99 = Cholesterol.ringCIdx.getD 0 88 ∧
    Cholesterol.pentPos 0 = Cholesterol.ringCpos 5 ∧
    Cholesterol.pentPos 1 = Cholesterol.ringCpos 0 ∧
    (∀ i ∈ [Cholesterol.ringDIdx.getD 2 99, Cholesterol.ringDIdx.getD 3 99,
        Cholesterol.ringDIdx.getD 4 99],
      i ∉ Cholesterol.ringAIdx ∧ i ∉ Cholesterol.ringBIdx ∧
        i ∉ Cholesterol.ringCIdx) ∧
    ATP.imidazoleRing.getD 0 99 = ATP.pyrimidineRing.getD 0 88 ∧
    ATP.imidazoleRing.getD 4 99 = ATP.pyrimidineRing.getD 5 88 ∧
    (ATP.makeATP.atoms.getD 0 ⟨⟨0, 0, 0⟩, 0, 0⟩).pos = ATP.C4.pos ∧
    (ATP.makeATP.atoms.getD 5 ⟨⟨0, 0, 0⟩, 0, 0⟩).pos = ATP.C5.pos ∧
    mkBond ATP.C4.pos ATP.N7.pos ∈ ATP.makeATP.bonds ∧
    mkBond ATP.N9.pos ATP.C5.pos ∈ ATP.makeATP.bonds := by
  refine ⟨by decide, by decide, rfl, rfl, by decide, by decide, by decide,
    rfl, rfl, ?_, ?_⟩
  · simp [ATP.makeATP]
  · simp [ATP.makeATP]

end Viewer3D
